import Mathlib

/-!
Verification development for the ScreenshotSaver Blender add-on
(`operators.py`, `properties.py`).

The code is shallowly embedded: Python strings are modelled as `List Char`
(`PyStr`), Blender property bags as Lean structures, Python floats as exact
rationals (`ℚ`) — none of the verified claims depend on floating-point
rounding — and filesystem listings as explicit lists passed to the functions
that inspect a directory.  Fallible operations return `Option`/`Except`.
Definitions carry the names of the Python functions they embed.
-/

namespace ScrshotSaver

/-- Python strings, modelled as their character lists. -/
abbrev PyStr := List Char

/-- The characters of `s` after the last occurrence of the character `sep`
(the whole string when `sep` does not occur).  This is Python's
`s.split(sep)[-1]` for a single-character separator. -/
def afterLastSep (sep : Char) (s : PyStr) : PyStr :=
  s.foldl (fun acc c => if c = sep then [] else acc ++ [c]) []

/-- The characters of `s` before the first occurrence of the substring `sep`
(the whole string when `sep` does not occur).  This is Python's
`s.split(sep)[0]` for a non-empty separator. -/
def beforeFirstSep (sep : PyStr) : PyStr → PyStr
  | [] => []
  | c :: rest => if sep.isPrefixOf (c :: rest) then [] else c :: beforeFirstSep sep rest

/-- Digit-string to number; `none` if empty or any character is not a digit. -/
def digitsToNat? : PyStr → Option Nat
  | [] => none
  | s =>
    s.foldl
      (fun acc c =>
        acc.bind (fun n => if c.isDigit then some (n * 10 + (c.toNat - '0'.toNat)) else none))
      (some 0)

/-- Python's `int(s)` on a trimmed string: an optional sign followed by at
least one digit; `none` models a raised `ValueError`. -/
def pyParseInt? : PyStr → Option Int
  | '-' :: rest => (digitsToNat? rest).map (fun n => -(n : Int))
  | '+' :: rest => (digitsToNat? rest).map (fun n => (n : Int))
  | s => (digitsToNat? s).map (fun n => (n : Int))

/-- Lexicographic (code-point) comparison of Python strings, as used by
`sorted` on a list of filenames. -/
def pyStrLe : PyStr → PyStr → Bool
  | [], _ => true
  | _ :: _, [] => false
  | a :: as, b :: bs =>
    if a = b then pyStrLe as bs else decide (a.toNat ≤ b.toNat)

/-- Insert into a `pyStrLe`-sorted list, keeping the sort stable. -/
def insertSorted (x : PyStr) : List PyStr → List PyStr
  | [] => [x]
  | y :: ys => if pyStrLe y x then y :: insertSorted x ys else x :: y :: ys

/-- Python's `sorted` on a list of strings (stable, lexicographic). -/
def pySorted : List PyStr → List PyStr
  | [] => []
  | x :: xs => insertSorted x (pySorted xs)

/-- Decimal digit characters of `n`, most significant first (fuel-driven so
that the kernel can evaluate it). -/
def natDigitsAux : Nat → Nat → PyStr
  | 0, _ => []
  | fuel + 1, n =>
    if n < 10 then [Char.ofNat (n + '0'.toNat)]
    else natDigitsAux fuel (n / 10) ++ [Char.ofNat (n % 10 + '0'.toNat)]

/-- Decimal digit characters of `n`, most significant first. -/
def natDigits (n : Nat) : PyStr := natDigitsAux (n + 1) n

/-- Python's `'{:04d}'.format(n)`: zero-pad to overall width 4, the sign
included for negative numbers; wider numbers are kept unpadded. -/
def format04 (n : Int) : PyStr :=
  if n < 0 then
    let d := natDigits n.natAbs
    '-' :: List.replicate (3 - d.length) '0' ++ d
  else
    let d := natDigits n.toNat
    List.replicate (4 - d.length) '0' ++ d

/-! ## PathVersioner (`handle_path_formatting`, `handle_path_formatting_mp4`)

`operators.py` computes the next output path by scanning the destination
directory: for every plain file it evaluates
`int(filename.split('_')[-1].split(f'.{file_format}')[0])`, skipping entries
where `int` raises `ValueError`, and uses `max(found) + 1` (or `1` when
nothing was found) as the 4-digit counter.  Note that the scan does **not**
test the filename against the base stem. -/

/-- One entry of a directory listing; `isFile` mirrors `Path(...).is_file()`
(directories and other non-plain-file entries have `isFile = false`). -/
structure DirEntry where
  name : PyStr
  isFile : Bool
deriving DecidableEq, Repr

/-- Python's `int(filename.split('_')[-1].split(f'.{file_format}')[0])`, with `none`
for a raised `ValueError`. -/
def suffixNumber (fileFormat : PyStr) (filename : PyStr) : Option Int :=
  pyParseInt? (beforeFirstSep ('.' :: fileFormat) (afterLastSep '_' filename))

/-- The `file_numbers` list accumulated by the directory scan: the parsed
suffix of every plain-file entry whose suffix parses as an integer. -/
def fileNumbers (fileFormat : PyStr) (entries : List DirEntry) : List Int :=
  entries.filterMap (fun e => if e.isFile then suffixNumber fileFormat e.name else none)

/-- The `counter` chosen by `handle_path_formatting`: `1` when no suffix
parsed, otherwise `max(file_numbers) + 1`. -/
def nextCounter (fileFormat : PyStr) (entries : List DirEntry) : Int :=
  match fileNumbers fileFormat entries with
  | [] => 1
  | x :: xs => xs.foldl max x + 1

/-- The path-versioning core shared by `handle_path_formatting` (stills) and
`handle_path_formatting_mp4` (videos): append `_NNNN.ext` to the base path,
where `NNNN` is the zero-padded next counter computed from the directory
listing. -/
def handle_path_formatting (entries : List DirEntry) (base fileFormat : PyStr) : PyStr :=
  base ++ '_' :: format04 (nextCounter fileFormat entries) ++ '.' :: fileFormat

/-! ### Helper lemmas about `nextCounter` -/

theorem foldl_max_eq (m : Int) :
    ∀ (xs : List Int) (acc : Int), (∀ x ∈ xs, x ≤ m) → acc ≤ m → (acc = m ∨ m ∈ xs) →
      xs.foldl max acc = m := by
  intro xs
  induction xs with
  | nil =>
    intro acc _ _ hm
    rcases hm with h | h
    · simpa using h
    · simp at h
  | cons y ys ih =>
    intro acc hub hacc hm
    simp only [List.foldl_cons]
    have hy : y ≤ m := hub y (by simp)
    have hub' : ∀ x ∈ ys, x ≤ m := fun x hx => hub x (by simp [hx])
    have hacc' : max acc y ≤ m := max_le hacc hy
    rcases hm with h | h
    · subst h
      exact ih (max acc y) hub' hacc' (Or.inl (max_eq_left hy))
    · rcases List.mem_cons.mp h with h | h
      · subst h
        exact ih (max acc m) hub' hacc' (Or.inl (max_eq_right hacc))
      · exact ih (max acc y) hub' hacc' (Or.inr h)

theorem nextCounter_eq_of_max (fileFormat : PyStr) (entries : List DirEntry)
    (x : Int) (xs : List Int) (m : Int)
    (h : fileNumbers fileFormat entries = x :: xs)
    (hub : ∀ y ∈ x :: xs, y ≤ m) (hmem : m ∈ x :: xs) :
    nextCounter fileFormat entries = m + 1 := by
  have hx : x ≤ m := hub x (by simp)
  have hfold : xs.foldl max x = m := by
    refine foldl_max_eq m xs x (fun y hy => hub y (by simp [hy])) hx ?_
    rcases List.mem_cons.mp hmem with h' | h'
    · exact Or.inl h'.symm
    · exact Or.inr h'
  unfold nextCounter
  rw [h]
  show xs.foldl max x + 1 = m + 1
  rw [hfold]

/-- C1 (amended): when the parseable numeric suffixes found in the directory
are exactly `1..k` — as happens when its plain files of the target extension
with integer suffixes are exactly `stem_0001..stem_000k`, all other entries
failing to parse — the computed counter is `k + 1`, and with no parseable
entry at all (`k = 0`) it is `1`.  The scan, however, is keyed on the suffix
alone, not on the stem. -/
theorem pathversioner_next_path
    (entries : List DirEntry) (base fileFormat : PyStr) (k : Nat)
    (h : fileNumbers fileFormat entries = (List.range k).map (fun i : Nat => (i : Int) + 1)) :
    handle_path_formatting entries base fileFormat
      = base ++ '_' :: format04 ((k : Int) + 1) ++ '.' :: fileFormat := by
  unfold handle_path_formatting
  have hc : nextCounter fileFormat entries = (k : Int) + 1 := by
    cases k with
    | zero =>
      unfold nextCounter
      rw [h]
      simp
    | succ j =>
      have hrange : (List.range (j + 1)).map (fun i : Nat => (i : Int) + 1)
          = (((0 : Nat) : Int) + 1)
              :: ((List.range j).map Nat.succ).map (fun i : Nat => (i : Int) + 1) := by
        rw [List.range_succ_eq_map, List.map_cons]
      refine nextCounter_eq_of_max fileFormat entries _ _ (((j : Nat) : Int) + 1)
        (h.trans hrange) ?_ ?_
      · rw [← hrange]
        intro y hy
        rcases List.mem_map.mp hy with ⟨i, hi, rfl⟩
        have hij : i ≤ j := Nat.lt_succ_iff.mp (List.mem_range.mp hi)
        have : (i : Int) ≤ (j : Int) := by exact_mod_cast hij
        linarith
      · rw [← hrange]
        refine List.mem_map.mpr ⟨j, ?_, rfl⟩
        exact List.mem_range.mpr (Nat.lt_succ_self j)
  rw [hc]

/-- Witness for C1: a directory holding `shot_0001.png`, `shot_0002.png`, a
non-matching plain file `notes.txt` and a non-file entry `backup`; the next
computed path is `shot_0003.png`. -/
theorem pathversioner_next_path_witness :
    fileNumbers "png".data
        [⟨"shot_0001.png".data, true⟩, ⟨"shot_0002.png".data, true⟩,
         ⟨"notes.txt".data, true⟩, ⟨"backup".data, false⟩]
      = (List.range 2).map (fun i : Nat => (i : Int) + 1) ∧
    handle_path_formatting
        [⟨"shot_0001.png".data, true⟩, ⟨"shot_0002.png".data, true⟩,
         ⟨"notes.txt".data, true⟩, ⟨"backup".data, false⟩]
        "shot".data "png".data
      = "shot_0003.png".data := by
  refine ⟨by decide, ?_⟩
  rw [pathversioner_next_path
    [⟨"shot_0001.png".data, true⟩, ⟨"shot_0002.png".data, true⟩,
     ⟨"notes.txt".data, true⟩, ⟨"backup".data, false⟩]
    "shot".data "png".data 2 (by decide)]
  decide

/-- C1 counterexample: the scan does not compare stems, so a file of a
different stem whose numeric suffix parses (`other_0099.png`) raises the
counter: with files `{shot_0001.png, other_0099.png}` the next path for stem
`shot` is `shot_0100.png`, not the `shot_0002.png` the claim predicts. -/
theorem pathversioner_ignores_stem_counterexample :
    handle_path_formatting
        [⟨"shot_0001.png".data, true⟩, ⟨"other_0099.png".data, true⟩]
        "shot".data "png".data
      = "shot_0100.png".data ∧
    handle_path_formatting
        [⟨"shot_0001.png".data, true⟩, ⟨"other_0099.png".data, true⟩]
        "shot".data "png".data
      ≠ "shot_0002.png".data := by
  constructor <;> decide

/-! ## Data model (`properties.py`)

`SCRSHOT_collection_property` (one ScreenshotItem) and the pieces of the
Blender viewport/render state that the add-on reads and writes.  Enum
properties become inductives; float properties become `ℚ`; the `camera_ob`
pointer is modelled by the camera object's name. -/

inductive RenderType | workbench | eevee
deriving DecidableEq, Repr

inductive LightingType | studio | matcap | flat
deriving DecidableEq, Repr

inductive ColorType | material | single | object | random | vertex | texture
deriving DecidableEq, Repr

inductive CamType | persp | ortho
deriving DecidableEq, Repr

inductive LensType | mm | fov
deriving DecidableEq, Repr

inductive ImgFormat | png | jpeg | open_exr
deriving DecidableEq, Repr

/-- Source: `'exr' if format_type == 'open_exr' else format_type` -/
def ImgFormat.ext : ImgFormat → PyStr
  | .png => "png".data
  | .jpeg => "jpeg".data
  | .open_exr => "exr".data

/-- Source: `str(lighting_type).upper()`. -/
def LightingType.upper : LightingType → PyStr
  | .studio => "STUDIO".data
  | .matcap => "MATCAP".data
  | .flat => "FLAT".data

/-- Source: `str(color_type).upper()`. -/
def ColorType.upper : ColorType → PyStr
  | .material => "MATERIAL".data
  | .single => "SINGLE".data
  | .object => "OBJECT".data
  | .random => "RANDOM".data
  | .vertex => "VERTEX".data
  | .texture => "TEXTURE".data

/-- One ScreenshotItem (`SCRSHOT_collection_property`). -/
structure Item where
  id : Int
  name : PyStr
  saved_name : PyStr
  enabled : Bool
  camera_ob : Option PyStr
  cam_res_x : Int
  cam_res_y : Int
  lock_res : Bool
  cam_type : CamType
  lens_type : LensType
  lens_flip_x : Bool
  lens_flip_y : Bool
  render_frame : Int
  use_subfolder : Bool
  subfolder_name : PyStr
  use_defaults : Bool
  render_type : RenderType
  lighting_type : LightingType
  studio_light_name : PyStr
  matcap_light_name : PyStr
  eevee_light_name : PyStr
  use_wsl : Bool
  color_type : ColorType
  single_color_value : ℚ × ℚ × ℚ
  use_backface_culling : Bool
  use_cavity : Bool
  cavity_ridge : ℚ
  cavity_valley : ℚ
  curve_ridge : ℚ
  curve_valley : ℚ
  use_outline : Bool
  outliner_color_value : ℚ × ℚ × ℚ
  use_spec_lighting : Bool
  use_scene_lights : Bool
  use_scene_world : Bool
  eevee_use_rotate : Bool
  eevee_intensity : ℚ
  eevee_alpha : ℚ
  eevee_blur : ℚ
  studio_rotate_z : ℚ
deriving DecidableEq, Repr

/-- An item carrying the property-declaration defaults of
`SCRSHOT_collection_property`. -/
def defaultItem : Item where
  id := 0
  name := []
  saved_name := []
  enabled := true
  camera_ob := none
  cam_res_x := 1920
  cam_res_y := 1080
  lock_res := false
  cam_type := .persp
  lens_type := .mm
  lens_flip_x := false
  lens_flip_y := false
  render_frame := 0
  use_subfolder := true
  subfolder_name := []
  use_defaults := true
  render_type := .workbench
  lighting_type := .studio
  studio_light_name := "default".data
  matcap_light_name := "basic_1.exr".data
  eevee_light_name := "forest.exr".data
  use_wsl := false
  color_type := .material
  single_color_value := (8/10, 8/10, 8/10)
  use_backface_culling := false
  use_cavity := false
  cavity_ridge := 0
  cavity_valley := 1
  curve_ridge := 1
  curve_valley := 0
  use_outline := true
  outliner_color_value := (0, 0, 0)
  use_spec_lighting := true
  use_scene_lights := true
  use_scene_world := true
  eevee_use_rotate := false
  eevee_intensity := 1
  eevee_alpha := 0
  eevee_blur := 1/2
  studio_rotate_z := 0

/-- The `space_data.shading` settings object. -/
structure Shading where
  type : PyStr
  light : PyStr
  use_world_space_lighting : Bool
  studiolight_rotate_z : ℚ
  studio_light : PyStr
  show_backface_culling : Bool
  show_object_outline : Bool
  show_cavity : Bool
  show_specular_highlight : Bool
  cavity_type : PyStr
  cavity_ridge_factor : ℚ
  cavity_valley_factor : ℚ
  curvature_ridge_factor : ℚ
  curvature_valley_factor : ℚ
  object_outline_color : ℚ × ℚ × ℚ
  color_type : PyStr
  use_scene_lights : Bool
  use_scene_world : Bool
  use_studiolight_view_rotation : Bool
  studiolight_intensity : ℚ
  studiolight_background_alpha : ℚ
  studiolight_background_blur : ℚ
  use_dof : Bool
  show_xray : Bool
  show_shadows : Bool
deriving DecidableEq, Repr

/-- Settings object `scene.render.image_settings`. -/
structure ImageSettings where
  color_mode : PyStr
  file_format : PyStr
  color_depth : PyStr
deriving DecidableEq, Repr

/-- Settings object `scene.render`. -/
structure RenderSettings where
  filepath : PyStr
  resolution_x : Int
  resolution_y : Int
  engine : PyStr
  use_file_extension : Bool
  use_render_cache : Bool
  use_overwrite : Bool
  use_placeholder : Bool
deriving DecidableEq, Repr

/-- The shared mutable session state touched by the render operator: the
shading, render and output settings plus the scene-level camera and frame
singletons.  (`scene.display.viewport_aa`, `scene.eevee.taa_samples`,
`overlay.show_overlays` and `scene.display_settings.display_device` are the
cherry-picked fields of their settings objects that the operator writes.) -/
structure SessionState where
  shading : Shading
  render : RenderSettings
  image_settings : ImageSettings
  camera : Option PyStr
  frame_current : Int
  show_overlays : Bool
  viewport_aa : PyStr
  taa_samples : Int
  display_device : PyStr
deriving DecidableEq, Repr

/-! ## ScreenshotItem Resolver (`handle_user_settings`)

Mutates the session state to match one item: output path (via the
PathVersioner, with a `listing` of the destination directory), current frame
(set inside `handle_path_formatting` in the source), active camera, output
resolution, then the per-item shading profile — unless `use_defaults` is
set, in which case the function returns early.  Note that the shading `type`
(and for EEVEE items the render `engine`) is written *before* the
`use_defaults` early exit. -/

def handle_user_settings (exportPath : PyStr) (fmt : ImgFormat) (listing : List DirEntry)
    (item : Item) (s : SessionState) : SessionState :=
  let pathEnd : PyStr :=
    if item.use_subfolder then item.subfolder_name ++ '/' :: item.name else item.name
  let filepath := handle_path_formatting listing (exportPath ++ '/' :: pathEnd) fmt.ext
  let s := { s with
    render := { s.render with
      filepath := filepath
      resolution_x := item.cam_res_x
      resolution_y := item.cam_res_y }
    frame_current := item.render_frame
    camera := item.camera_ob }
  match item.render_type with
  | .workbench =>
    let s := { s with shading := { s.shading with type := "SOLID".data } }
    if item.use_defaults then s
    else
      let sh := s.shading
      let sh := { sh with light := item.lighting_type.upper }
      let sh :=
        if item.lighting_type = .studio then
          { sh with
            use_world_space_lighting := item.use_wsl
            studiolight_rotate_z := item.studio_rotate_z
            studio_light := item.studio_light_name }
        else if item.lighting_type = .matcap then
          { sh with studio_light := item.matcap_light_name }
        else sh
      let sh := { sh with
        show_backface_culling := item.use_backface_culling
        show_object_outline := item.use_outline
        show_cavity := item.use_cavity
        show_specular_highlight := item.use_spec_lighting
        cavity_type := "BOTH".data
        cavity_ridge_factor := item.cavity_ridge
        cavity_valley_factor := item.cavity_valley
        curvature_ridge_factor := item.curve_ridge
        curvature_valley_factor := item.curve_valley
        object_outline_color := item.outliner_color_value
        color_type := item.color_type.upper }
      { s with shading := sh }
  | .eevee =>
    let s := { s with
      render := { s.render with engine := "BLENDER_EEVEE".data }
      shading := { s.shading with type := "MATERIAL".data } }
    if item.use_defaults then s
    else
      { s with shading := { s.shading with
          use_scene_lights := item.use_scene_lights
          use_scene_world := item.use_scene_world
          studio_light := item.eevee_light_name
          use_studiolight_view_rotation := item.eevee_use_rotate
          studiolight_rotate_z := item.studio_rotate_z
          studiolight_intensity := item.eevee_intensity
          studiolight_background_alpha := item.eevee_alpha
          studiolight_background_blur := item.eevee_blur } }

/-- A concrete session state used to instantiate theorems (a material-preview
viewport with EEVEE as the scene engine). -/
def defaultSession : SessionState where
  shading := {
    type := "MATERIAL".data
    light := "STUDIO".data
    use_world_space_lighting := false
    studiolight_rotate_z := 0
    studio_light := "default".data
    show_backface_culling := false
    show_object_outline := true
    show_cavity := false
    show_specular_highlight := true
    cavity_type := "SCREEN".data
    cavity_ridge_factor := 1
    cavity_valley_factor := 1
    curvature_ridge_factor := 1
    curvature_valley_factor := 1
    object_outline_color := (0, 0, 0)
    color_type := "MATERIAL".data
    use_scene_lights := false
    use_scene_world := false
    use_studiolight_view_rotation := false
    studiolight_intensity := 1
    studiolight_background_alpha := 0
    studiolight_background_blur := 0
    use_dof := true
    show_xray := false
    show_shadows := false }
  render := {
    filepath := "/tmp/out".data
    resolution_x := 2560
    resolution_y := 1440
    engine := "BLENDER_EEVEE".data
    use_file_extension := false
    use_render_cache := false
    use_overwrite := false
    use_placeholder := true }
  image_settings := { color_mode := "RGBA".data, file_format := "PNG".data, color_depth := "8".data }
  camera := none
  frame_current := 7
  show_overlays := true
  viewport_aa := "8".data
  taa_samples := 64
  display_device := "sRGB".data

/-- C2 (amended): when `use_defaults` is set, `handle_user_settings` mutates
exactly the output path, current frame, active camera, output resolution,
and — contrary to the claim — the viewport shading `type` (plus, for EEVEE
items, the render `engine`); every other ambient shading setting of the
session is left unchanged by the early exit. -/
theorem resolver_use_defaults_early_exit
    (exportPath : PyStr) (fmt : ImgFormat) (listing : List DirEntry)
    (item : Item) (s : SessionState) (h : item.use_defaults = true) :
    handle_user_settings exportPath fmt listing item s
      = { s with
          camera := item.camera_ob
          frame_current := item.render_frame
          shading := { s.shading with
            type := match item.render_type with
              | .workbench => "SOLID".data
              | .eevee => "MATERIAL".data }
          render := { s.render with
            filepath := handle_path_formatting listing
              (exportPath ++ '/' ::
                (if item.use_subfolder then item.subfolder_name ++ '/' :: item.name
                 else item.name)) fmt.ext
            resolution_x := item.cam_res_x
            resolution_y := item.cam_res_y
            engine := match item.render_type with
              | .workbench => s.render.engine
              | .eevee => "BLENDER_EEVEE".data } } := by
  cases hr : item.render_type <;> simp [handle_user_settings, h, hr]

/-- Witness for C2 at a concrete item and session. -/
theorem resolver_use_defaults_early_exit_witness :
    ({ defaultItem with use_defaults := true } : Item).use_defaults = true ∧
    handle_user_settings [] ImgFormat.png [] { defaultItem with use_defaults := true }
        defaultSession
      = { defaultSession with
          camera := ({ defaultItem with use_defaults := true } : Item).camera_ob
          frame_current := ({ defaultItem with use_defaults := true } : Item).render_frame
          shading := { defaultSession.shading with
            type := match ({ defaultItem with use_defaults := true } : Item).render_type with
              | .workbench => "SOLID".data
              | .eevee => "MATERIAL".data }
          render := { defaultSession.render with
            filepath := handle_path_formatting []
              (([] : PyStr) ++ '/' ::
                (if ({ defaultItem with use_defaults := true } : Item).use_subfolder then
                  ({ defaultItem with use_defaults := true } : Item).subfolder_name ++
                    '/' :: ({ defaultItem with use_defaults := true } : Item).name
                 else ({ defaultItem with use_defaults := true } : Item).name))
              ImgFormat.png.ext
            resolution_x := ({ defaultItem with use_defaults := true } : Item).cam_res_x
            resolution_y := ({ defaultItem with use_defaults := true } : Item).cam_res_y
            engine := match ({ defaultItem with use_defaults := true } : Item).render_type with
              | .workbench => defaultSession.render.engine
              | .eevee => "BLENDER_EEVEE".data } } :=
  ⟨rfl, resolver_use_defaults_early_exit [] ImgFormat.png []
    { defaultItem with use_defaults := true } defaultSession rfl⟩

/-- C2 counterexample: an item with `use_defaults` set still changes the
session's viewport shading `type` — here a workbench item turns a
material-preview viewport (`shading.type = MATERIAL`) into `SOLID`, so not
every ambient shading setting is left unchanged. -/
theorem resolver_use_defaults_shading_type_counterexample :
    (handle_user_settings [] ImgFormat.png []
        { defaultItem with use_defaults := true, render_type := RenderType.workbench }
        defaultSession).shading.type
      ≠ defaultSession.shading.type ∧
    (handle_user_settings [] ImgFormat.png []
        { defaultItem with use_defaults := true, render_type := RenderType.workbench }
        defaultSession).shading.type
      = "SOLID".data := by
  constructor <;> decide

/-! ## SequenceEncoder (`SCRSHOT_OT_generate_mp4`)

`generate_text_file` discovers the item's frames (filename prefix
`stem + '_'`, suffix `file_format`, in `sorted` order) and writes the concat
manifest: the first frame repeated `mp4_start_repeat_count` extra times at
the head, every frame once, the loop's final `file_path` repeated
`mp4_end_repeat_count` extra times at the tail.  The manifest is modelled as
the ordered list of `file '...'` entries (each tagged `duration 1` in the
source).  When no frame matches, the trailing loop reads the undefined
Python variable `file_path` (a `NameError`) as soon as the end-repeat count
is positive — modelled by `none`. -/

/-- Source: `sorted(os.listdir(input_path.parent))` filtered to this item's frames. -/
def render_files (listing : List PyStr) (stem fileFormat : PyStr) : List PyStr :=
  (pySorted listing).filter
    (fun f => (stem ++ ['_']).isPrefixOf f && fileFormat.isSuffixOf f)

/-- The body of the manifest loop: every frame once, the first preceded by
`start_repeat` extra copies of itself. -/
def manifestBody (startRepeat : Nat) (files : List PyStr) : List PyStr :=
  files.enum.flatMap
    (fun p => (if p.1 = 0 then List.replicate startRepeat p.2 else []) ++ [p.2])

/-- The manifest entries written by `generate_text_file`. -/
def generate_text_file (listing : List PyStr) (stem fileFormat : PyStr)
    (startRepeat endRepeat : Nat) : Option (List PyStr) :=
  match (render_files listing stem fileFormat).getLast? with
  | some last =>
    some (manifestBody startRepeat (render_files listing stem fileFormat)
      ++ List.replicate endRepeat last)
  | none => if endRepeat = 0 then some [] else none

theorem enumFrom_bind_singleton (startRepeat : Nat) :
    ∀ (l : List PyStr) (n : Nat),
      (l.enumFrom (n + 1)).flatMap
          (fun p => (if p.1 = 0 then List.replicate startRepeat p.2 else []) ++ [p.2])
        = l := by
  intro l
  induction l with
  | nil => intro n; rfl
  | cons x xs ih =>
    intro n
    show (((if n + 1 = 0 then _ else []) ++ [x] : List PyStr)
      ++ (xs.enumFrom (n + 2)).flatMap _) = x :: xs
    rw [if_neg (Nat.succ_ne_zero n), ih (n + 1)]
    rfl

theorem manifestBody_cons (startRepeat : Nat) (f : PyStr) (rest : List PyStr) :
    manifestBody startRepeat (f :: rest) = List.replicate startRepeat f ++ (f :: rest) := by
  show ((if (0 : Nat) = 0 then List.replicate startRepeat f else []) ++ [f])
      ++ (rest.enumFrom 1).flatMap _ = _
  rw [if_pos rfl, enumFrom_bind_singleton startRepeat rest 0]
  simp

/-- C4: when the matching frames are `f :: rest` (n = rest.length + 1 frames
in discovery order), the manifest is `start_repeat` extra copies of the
first frame, then every frame once, then `end_repeat` extra copies of the
last frame — `start_repeat + n + end_repeat` entries in total, with zero
repeat counts producing no duplication. -/
theorem manifest_repeat_expansion (listing : List PyStr) (stem fileFormat : PyStr)
    (startRepeat endRepeat : Nat) (f : PyStr) (rest : List PyStr)
    (h : render_files listing stem fileFormat = f :: rest) :
    generate_text_file listing stem fileFormat startRepeat endRepeat
      = some (List.replicate startRepeat f ++ (f :: rest)
          ++ List.replicate endRepeat ((f :: rest).getLast (List.cons_ne_nil f rest))) ∧
    (generate_text_file listing stem fileFormat startRepeat endRepeat).map List.length
      = some (startRepeat + (rest.length + 1) + endRepeat) := by
  have hmain : generate_text_file listing stem fileFormat startRepeat endRepeat
      = some (List.replicate startRepeat f ++ (f :: rest)
          ++ List.replicate endRepeat ((f :: rest).getLast (List.cons_ne_nil f rest))) := by
    unfold generate_text_file
    rw [h, List.getLast?_eq_getLast (f :: rest) (List.cons_ne_nil f rest), manifestBody_cons]
  refine ⟨hmain, ?_⟩
  rw [hmain]
  simp [List.length_append]
  omega

/-- Witness for C4: three matching frames among junk, `start_repeat = 2`,
`end_repeat = 1` give the 6-entry manifest `[f0, f0, f0, f1, f2, f2]`. -/
theorem manifest_repeat_expansion_witness :
    render_files ["fr_0002.png".data, "x.txt".data, "fr_0001.png".data, "fr_0003.png".data]
        "fr".data "png".data
      = "fr_0001.png".data :: ["fr_0002.png".data, "fr_0003.png".data] ∧
    generate_text_file ["fr_0002.png".data, "x.txt".data, "fr_0001.png".data, "fr_0003.png".data]
        "fr".data "png".data 2 1
      = some ["fr_0001.png".data, "fr_0001.png".data, "fr_0001.png".data,
              "fr_0002.png".data, "fr_0003.png".data, "fr_0003.png".data] := by
  refine ⟨by decide, ?_⟩
  rw [(manifest_repeat_expansion
    ["fr_0002.png".data, "x.txt".data, "fr_0001.png".data, "fr_0003.png".data]
    "fr".data "png".data 2 1 "fr_0001.png".data ["fr_0002.png".data, "fr_0003.png".data]
    (by decide)).1]
  decide

/-! ## SequenceEncoder resolution check (`SCRSHOT_OT_generate_mp4.execute`)

After the directory and file-existence checks, `execute` computes `bad_res`:
with no crop every candidate frame's width and height must be even (for EXR
input the dimensions come from the EXR header, for PNG/JPEG from the decoded
image — both are modelled by the `width`/`height` fields of `FrameFile`);
with `to_resolution` crop the crop target must be even; with `from_border`
crop every frame's dimensions minus the border amounts must be even.  When
`bad_res` holds it reports an error and returns `CANCELLED` before the
manifest, the output path, and the encoder invocation — modelled by
`Except.error`, so no output file is written. -/

inductive Mp4Format | mp4 | gif
deriving DecidableEq, Repr

def Mp4Format.ext : Mp4Format → PyStr
  | .mp4 => "mp4".data
  | .gif => "gif".data

inductive CropType | none | from_border | to_resolution
deriving DecidableEq, Repr

/-- The `SCRSHOT_property_group` fields consumed by the encoder. -/
structure SaverSettings where
  format_type : ImgFormat
  mp4_format_type : Mp4Format
  mp4_framerate : Int
  mp4_res_downscale : Int
  mp4_start_repeat_count : Nat
  mp4_end_repeat_count : Nat
  mp4_crop_type : CropType
  mp4_crop_res_x : Int
  mp4_crop_res_y : Int
  mp4_crop_amt_width : Int
  mp4_crop_amt_height : Int
deriving DecidableEq, Repr

/-- A directory entry of the input directory, with the decoded image
dimensions for image files. -/
structure FrameFile where
  name : PyStr
  isFile : Bool
  width : Int
  height : Int
deriving DecidableEq, Repr

/-- The `files_list` filter: plain files whose name ends with the active
image format's extension. -/
def mp4_files_list (listing : List FrameFile) (fileFormat : PyStr) : List FrameFile :=
  listing.filter (fun f => f.isFile && fileFormat.isSuffixOf f.name)

/-- The `bad_res` flag of `SCRSHOT_OT_generate_mp4.execute`. -/
def bad_res (sett : SaverSettings) (files_list : List FrameFile) : Bool :=
  match sett.mp4_crop_type with
  | .none => files_list.any (fun f => !(f.width % 2 = 0) || !(f.height % 2 = 0))
  | .to_resolution =>
    !(sett.mp4_crop_res_x % 2 = 0) || !(sett.mp4_crop_res_y % 2 = 0)
  | .from_border => files_list.any (fun f =>
      !((f.width - sett.mp4_crop_amt_width) % 2 = 0)
        || !((f.height - sett.mp4_crop_amt_height) % 2 = 0))

def noDirMsg : PyStr := "The render directory does not exist".data

def noFilesMsg : PyStr := "There are no files of the correct type in this directory".data

def badResMsg : PyStr :=
  ("An image with a resolution (or crop res) that is not divisible by 2 was found."
    ++ "\n\nConsider using the crop feature to encode.").data

/-- Embeds `SCRSHOT_OT_generate_mp4.execute` up to the encoder invocation: the
validation pipeline, ending in the versioned output path handed to the
external encoder (`Except.ok`) — the encoder subprocess itself is an
external collaborator; every `Except.error` is a `CANCELLED` return before
any output file is created. -/
def generate_mp4_execute (sett : SaverSettings) (input_path : PyStr)
    (dir_exists : Bool) (listing : List FrameFile) : Except PyStr PyStr :=
  if !dir_exists then .error noDirMsg
  else
    let files_list := mp4_files_list listing sett.format_type.ext
    if files_list.isEmpty then .error noFilesMsg
    else if bad_res sett files_list then .error badResMsg
    else
      .ok (handle_path_formatting (listing.map (fun f => ⟨f.name, f.isFile⟩))
        input_path sett.mp4_format_type.ext)

/-- The claim's oddness condition: some candidate frame — or, when a crop is
configured, the crop target — has an odd width or odd height after the
crop. -/
def oddAfterCrop (sett : SaverSettings) (files_list : List FrameFile) : Prop :=
  match sett.mp4_crop_type with
  | .none => ∃ f ∈ files_list, f.width % 2 = 1 ∨ f.height % 2 = 1
  | .to_resolution => sett.mp4_crop_res_x % 2 = 1 ∨ sett.mp4_crop_res_y % 2 = 1
  | .from_border => ∃ f ∈ files_list,
      (f.width - sett.mp4_crop_amt_width) % 2 = 1
        ∨ (f.height - sett.mp4_crop_amt_height) % 2 = 1

/-- C3: whenever the input directory exists, holds files of the active
format, and some candidate frame (or the configured crop target) is odd in
either dimension after any crop, `execute` fails with the divisibility error
and writes no output file. -/
theorem encoder_rejects_odd_resolution (sett : SaverSettings) (input_path : PyStr)
    (listing : List FrameFile)
    (hfiles : mp4_files_list listing sett.format_type.ext ≠ [])
    (hodd : oddAfterCrop sett (mp4_files_list listing sett.format_type.ext)) :
    generate_mp4_execute sett input_path true listing = .error badResMsg := by
  have hbad : bad_res sett (mp4_files_list listing sett.format_type.ext) = true := by
    unfold oddAfterCrop at hodd
    unfold bad_res
    cases hc : sett.mp4_crop_type with
    | none =>
      rw [hc] at hodd
      rcases hodd with ⟨f, hmem, hf⟩
      refine List.any_eq_true.mpr ⟨f, hmem, ?_⟩
      rcases hf with hf | hf <;> simp [hf]
    | to_resolution =>
      rw [hc] at hodd
      rcases hodd with hf | hf <;> simp [hf]
    | from_border =>
      rw [hc] at hodd
      rcases hodd with ⟨f, hmem, hf⟩
      refine List.any_eq_true.mpr ⟨f, hmem, ?_⟩
      rcases hf with hf | hf <;> simp [hf]
  unfold generate_mp4_execute
  rw [if_neg (by simp)]
  rw [if_neg (by simpa using hfiles)]
  rw [if_pos hbad]

/-- Witness for C3: a single 101×100 frame with no crop configured is
rejected with the divisibility error. -/
theorem encoder_rejects_odd_resolution_witness :
    mp4_files_list [⟨"fr_0001.png".data, true, 101, 100⟩] ImgFormat.png.ext ≠ [] ∧
    oddAfterCrop
      ⟨ImgFormat.png, Mp4Format.mp4, 2, 1, 0, 0, CropType.none, 1920, 1080, 0, 0⟩
      (mp4_files_list [⟨"fr_0001.png".data, true, 101, 100⟩] ImgFormat.png.ext) ∧
    generate_mp4_execute
        ⟨ImgFormat.png, Mp4Format.mp4, 2, 1, 0, 0, CropType.none, 1920, 1080, 0, 0⟩
        "out/fr".data true [⟨"fr_0001.png".data, true, 101, 100⟩]
      = .error badResMsg := by
  refine ⟨by decide, ?_, ?_⟩
  · exact ⟨⟨"fr_0001.png".data, true, 101, 100⟩, by decide, Or.inl (by decide)⟩
  · exact encoder_rejects_odd_resolution _ _ _ (by decide)
      ⟨⟨"fr_0001.png".data, true, 101, 100⟩, by decide, Or.inl (by decide)⟩

/-! ## StateSnapshot (`save_settings` / `load_saved_settings`)

`save_settings` walks `dir(data)` for each settings object and records every
`(attribute, getattr(data, attr))` pair; `load_saved_settings` replays the
pairs with `setattr`, catching `AttributeError` (read-only attribute) and
`TypeError` (type invalid under the object's current mode) and continuing
with the next pair.  A settings object is modelled as an attribute bag: the
enumerated attribute names (`dir()`), the value map (`getattr`), and a
write-permission predicate (`setattr` succeeding); `writeOk a = false`
covers both caught exception classes. -/

/-- One mutable settings object (attribute bag). -/
structure SettingsBag (α : Type) where
  attrs : List PyStr
  val : PyStr → α
  writeOk : PyStr → Bool

/-- Embeds `save_settings` restricted to one settings object: the recorded
`(attribute, value)` pairs, in `dir()` order. -/
def save_settings {α : Type} (bag : SettingsBag α) : List (PyStr × α) :=
  bag.attrs.map (fun a => (a, bag.val a))

/-- One `setattr` attempt of the restore loop: a raising write
(`writeOk = false`) is skipped, leaving the bag unchanged. -/
def setattrSkip {α : Type} (bag : SettingsBag α) (p : PyStr × α) : SettingsBag α :=
  if bag.writeOk p.1 then
    { bag with val := fun n => if n = p.1 then p.2 else bag.val n }
  else bag

/-- Embeds `load_saved_settings` restricted to one settings object: replay every
recorded pair, skipping raising writes. -/
def load_saved_settings {α : Type} (saved : List (PyStr × α)) (bag : SettingsBag α) :
    SettingsBag α :=
  saved.foldl setattrSkip bag

theorem setattrSkip_writeOk {α : Type} (bag : SettingsBag α) (p : PyStr × α) :
    (setattrSkip bag p).writeOk = bag.writeOk := by
  unfold setattrSkip
  split <;> rfl

theorem load_val_eq_of_all {α : Type} (a : PyStr) (v : α) :
    ∀ (saved : List (PyStr × α)) (bag : SettingsBag α),
      (∀ p ∈ saved, p.1 = a → p.2 = v) → bag.val a = v →
      (load_saved_settings saved bag).val a = v := by
  intro saved
  induction saved with
  | nil => intro bag _ hv; exact hv
  | cons p ps ih =>
    intro bag hall hv
    show (load_saved_settings ps (setattrSkip bag p)).val a = v
    refine ih (setattrSkip bag p) (fun q hq hqa => hall q (List.mem_cons_of_mem p hq) hqa) ?_
    unfold setattrSkip
    split
    · by_cases ha : a = p.1
      · simpa [ha] using hall p (List.mem_cons_self p ps) ha.symm
      · simpa [ha] using hv
    · exact hv

theorem load_val_of_mem {α : Type} (a : PyStr) (v : α) :
    ∀ (saved : List (PyStr × α)) (bag : SettingsBag α),
      (∀ p ∈ saved, p.1 = a → p.2 = v) → (a, v) ∈ saved → bag.writeOk a = true →
      (load_saved_settings saved bag).val a = v := by
  intro saved
  induction saved with
  | nil => intro bag _ hmem _; simp at hmem
  | cons p ps ih =>
    intro bag hall hmem hw
    show (load_saved_settings ps (setattrSkip bag p)).val a = v
    by_cases hp : p.1 = a
    · have hv : p.2 = v := hall p (List.mem_cons_self p ps) hp
      refine load_val_eq_of_all a v ps (setattrSkip bag p)
        (fun q hq hqa => hall q (List.mem_cons_of_mem p hq) hqa) ?_
      unfold setattrSkip
      rw [hp, hw]
      simp [hv]
    · have hmem' : (a, v) ∈ ps := by
        rcases List.mem_cons.mp hmem with h | h
        · exact absurd (congrArg Prod.fst h).symm hp
        · exact h
      refine ih (setattrSkip bag p)
        (fun q hq hqa => hall q (List.mem_cons_of_mem p hq) hqa) hmem' ?_
      rw [setattrSkip_writeOk]
      exact hw

theorem load_val_no_write {α : Type} (a : PyStr) :
    ∀ (saved : List (PyStr × α)) (bag : SettingsBag α), bag.writeOk a = false →
      (load_saved_settings saved bag).val a = bag.val a := by
  intro saved
  induction saved with
  | nil => intro bag _; rfl
  | cons p ps ih =>
    intro bag hw
    show (load_saved_settings ps (setattrSkip bag p)).val a = bag.val a
    have hval : (setattrSkip bag p).val a = bag.val a := by
      unfold setattrSkip
      split
      · next hok =>
        have : ¬a = p.1 := fun h => by rw [h] at hw; rw [hw] at hok; cases hok
        simp [this]
      · rfl
    rw [ih (setattrSkip bag p) (by rw [setattrSkip_writeOk]; exact hw)]
    exact hval

/-- C6: `restore(capture(S))` applied to the (arbitrarily mutated) bag `S'`
leaves every attribute that is writable at restore time equal to its
pre-capture value in `S`, and skips every attribute whose write raises,
leaving the mutated value in place — without aborting the restoration of
the remaining attributes (each writable attribute is restored regardless of
any other attribute failing). -/
theorem snapshot_restore_roundtrip {α : Type} (S S' : SettingsBag α) (a : PyStr)
    (hmem : a ∈ S.attrs) :
    (S'.writeOk a = true →
      (load_saved_settings (save_settings S) S').val a = S.val a) ∧
    (S'.writeOk a = false →
      (load_saved_settings (save_settings S) S').val a = S'.val a) := by
  constructor
  · intro hw
    refine load_val_of_mem a (S.val a) (save_settings S) S' ?_ ?_ hw
    · intro q hq hqa
      rcases List.mem_map.mp hq with ⟨b, _, rfl⟩
      simp only at hqa
      rw [hqa]
    · exact List.mem_map.mpr ⟨a, hmem, rfl⟩
  · intro hw
    exact load_val_no_write a (save_settings S) S' hw

/-- Witness for C6: a two-attribute bag; after mutation, the writable
attribute `x` is restored to its pre-capture value while the read-only
attribute `y` keeps its mutated value. -/
theorem snapshot_restore_roundtrip_witness :
    ("x".data ∈ (SettingsBag.mk ["x".data, "y".data]
        (fun n => if n = "x".data then (1 : Int) else 2) (fun _ => true)).attrs) ∧
    (load_saved_settings
        (save_settings (SettingsBag.mk ["x".data, "y".data]
          (fun n => if n = "x".data then (1 : Int) else 2) (fun _ => true)))
        (SettingsBag.mk ["x".data, "y".data] (fun _ => (99 : Int))
          (fun n => n = "x".data))).val "x".data
      = (SettingsBag.mk ["x".data, "y".data]
          (fun n => if n = "x".data then (1 : Int) else 2) (fun _ => true)).val "x".data :=
  ⟨by decide,
    (snapshot_restore_roundtrip
      (SettingsBag.mk ["x".data, "y".data]
        (fun n => if n = "x".data then (1 : Int) else 2) (fun _ => true))
      (SettingsBag.mk ["x".data, "y".data] (fun _ => (99 : Int))
        (fun n => n = "x".data))
      "x".data (by decide)).1 (by decide)⟩

/-! ### List helpers for indexed updates -/

theorem list_set_self {α : Type} :
    ∀ (l : List α) (i : Nat) (x : α), l[i]? = some x → l.set i x = l := by
  intro l
  induction l with
  | nil => intro i x h; cases h
  | cons b bs ih =>
    intro i x h
    cases i with
    | zero =>
      simp only [List.getElem?_cons_zero, Option.some.injEq] at h
      rw [List.set_cons_zero, h]
    | succ j =>
      simp only [List.getElem?_cons_succ] at h
      rw [List.set_cons_succ, ih j x h]

theorem list_getElem?_set_same {α : Type} :
    ∀ (l : List α) (i : Nat) (a x : α), l[i]? = some a → (l.set i x)[i]? = some x := by
  intro l
  induction l with
  | nil => intro i a x h; cases h
  | cons b bs ih =>
    intro i a x h
    cases i with
    | zero => rw [List.set_cons_zero]; exact List.getElem?_cons_zero
    | succ j =>
      simp only [List.getElem?_cons_succ] at h
      rw [List.set_cons_succ]
      simp only [List.getElem?_cons_succ]
      exact ih j a x h

theorem countP_set_add {α : Type} (p : α → Bool) :
    ∀ (l : List α) (i : Nat) (a x : α), l[i]? = some a →
      (l.set i x).countP p + (if p a then 1 else 0)
        = l.countP p + (if p x then 1 else 0) := by
  intro l
  induction l with
  | nil => intro i a x h; cases h
  | cons b bs ih =>
    intro i a x h
    cases i with
    | zero =>
      simp only [List.getElem?_cons_zero, Option.some.injEq] at h
      subst h
      rw [List.set_cons_zero, List.countP_cons, List.countP_cons]
      omega
    | succ j =>
      simp only [List.getElem?_cons_succ] at h
      rw [List.set_cons_succ, List.countP_cons, List.countP_cons]
      have := ih j a x h
      omega

theorem nodup_set_of_not_mem {α : Type} :
    ∀ (l : List α) (i : Nat) (x : α), l.Nodup → x ∉ l → (l.set i x).Nodup := by
  intro l
  induction l with
  | nil => intro i x _ _; cases i <;> exact List.nodup_nil
  | cons b bs ih =>
    intro i x hnd hmem
    rcases List.nodup_cons.mp hnd with ⟨hb, hbs⟩
    cases i with
    | zero =>
      rw [List.set_cons_zero]
      exact List.nodup_cons.mpr ⟨fun h => hmem (List.mem_cons_of_mem b h), hbs⟩
    | succ j =>
      rw [List.set_cons_succ]
      refine List.nodup_cons.mpr ⟨?_, ih j x hbs (fun h => hmem (List.mem_cons_of_mem b h))⟩
      intro h
      rcases List.mem_or_eq_of_mem_set h with h | h
      · exact hb h
      · exact hmem (h ▸ List.mem_cons_self b bs)

theorem countP_le_one_of_nodup_map {α β : Type} (f : α → β) (p : α → Bool)
    (hp : ∀ a b, p a → p b → f a = f b) :
    ∀ l : List α, (l.map f).Nodup → l.countP p ≤ 1 := by
  intro l
  induction l with
  | nil => intro _; simp
  | cons b bs ih =>
    intro hnd
    rw [List.map_cons] at hnd
    rcases List.nodup_cons.mp hnd with ⟨hb, hbs⟩
    rw [List.countP_cons]
    by_cases hpb : p b
    · have hzero : bs.countP p = 0 := by
        by_contra hne
        have hpos : 0 < bs.countP p := Nat.pos_of_ne_zero hne
        rcases List.countP_pos_iff.mp hpos with ⟨c, hc, hpc⟩
        exact hb (List.mem_map.mpr ⟨c, hc, (hp c b hpc hpb)⟩)
      simp [hzero, hpb]
    · have := ih hbs
      simp [hpb]
      omega

/-! ## ScreenshotItem name uniqueness (`name_conflict_handling`)

Setting `name` fires the update callback: it counts items (itself included)
whose `name` equals the new value; on a repeat it writes `saved_name` back
into `name` — which re-fires the callback synchronously, modelled by a fuel
parameter — and warns the user; otherwise it renames the linked
camera object/data identifiers from `saved_name` to `name` (when
`saved_name` is non-empty) and records `saved_name = name`. -/

/-- A `bpy.data.objects` / `bpy.data.cameras` entry carrying a
`screenshot_id`. -/
structure CamObj where
  name : PyStr
  screenshot_id : PyStr
  isCamera : Bool
deriving DecidableEq, Repr

/-- The rename cascade over `bpy.data.objects` (camera-typed only) and
`bpy.data.cameras`. -/
def rename_identifiers (savedName newName : PyStr) (obs cams : List CamObj) :
    List CamObj × List CamObj :=
  (obs.map (fun ob =>
      if ob.screenshot_id = savedName ∧ ob.isCamera then
        { ob with screenshot_id := newName, name := newName }
      else ob),
   cams.map (fun c =>
      if c.screenshot_id = savedName then
        { c with screenshot_id := newName, name := newName }
      else c))

/-- The `name` update callback; the fuel bounds the synchronous re-entry
caused by assigning `self.name` inside the callback (one level suffices in
every reachable state). -/
def name_conflict_handling :
    Nat → List CamObj → List CamObj → List Item → Nat →
      List CamObj × List CamObj × List Item × Bool
  | 0, obs, cams, items, _ => (obs, cams, items, false)
  | fuel + 1, obs, cams, items, i =>
    match items[i]? with
    | none => (obs, cams, items, false)
    | some self =>
      if 1 < items.countP (fun it => it.name == self.name) then
        let items1 := items.set i { self with name := self.saved_name }
        let r := name_conflict_handling fuel obs cams items1 i
        (r.1, r.2.1, r.2.2.1, true)
      else
        let oc :=
          if self.saved_name ≠ [] then
            rename_identifiers self.saved_name self.name obs cams
          else (obs, cams)
        (oc.1, oc.2, items.set i { self with saved_name := self.name }, false)

/-- Assigning a new `name` to item `i`: write the field, then run the update
callback. -/
def set_item_name (fuel : Nat) (obs cams : List CamObj) (items : List Item)
    (i : Nat) (newName : PyStr) : List CamObj × List CamObj × List Item × Bool :=
  match items[i]? with
  | none => (obs, cams, items, false)
  | some it => name_conflict_handling fuel obs cams (items.set i { it with name := newName }) i

theorem name_conflict_handling_succ_some (fuel : Nat) (obs cams : List CamObj)
    (items : List Item) (i : Nat) (self : Item) (h : items[i]? = some self) :
    name_conflict_handling (fuel + 1) obs cams items i
      = if 1 < items.countP (fun it => it.name == self.name) then
          ((name_conflict_handling fuel obs cams
              (items.set i { self with name := self.saved_name }) i).1,
           (name_conflict_handling fuel obs cams
              (items.set i { self with name := self.saved_name }) i).2.1,
           (name_conflict_handling fuel obs cams
              (items.set i { self with name := self.saved_name }) i).2.2.1, true)
        else
          ((if self.saved_name ≠ [] then
              rename_identifiers self.saved_name self.name obs cams
            else (obs, cams)).1,
           (if self.saved_name ≠ [] then
              rename_identifiers self.saved_name self.name obs cams
            else (obs, cams)).2,
           items.set i { self with saved_name := self.name }, false) := by
  conv_lhs => rw [name_conflict_handling]
  rw [h]

theorem countP_names_le_one (items : List Item) (nm : PyStr)
    (hnodup : (items.map Item.name).Nodup) :
    items.countP (fun it => it.name == nm) ≤ 1 := by
  refine countP_le_one_of_nodup_map Item.name (fun it => it.name == nm) ?_ items hnodup
  intro a b ha hb
  rw [eq_of_beq ha, eq_of_beq hb]

theorem countP_names_pos_iff (items : List Item) (nm : PyStr) :
    0 < items.countP (fun it => it.name == nm) ↔ nm ∈ items.map Item.name := by
  rw [List.countP_pos_iff]
  constructor
  · rintro ⟨it, hmem, hbeq⟩
    exact List.mem_map.mpr ⟨it, hmem, eq_of_beq hbeq⟩
  · rintro h
    rcases List.mem_map.mp h with ⟨it, hmem, rfl⟩
    exact ⟨it, hmem, beq_self_eq_true it.name⟩

/-- C7: starting from pairwise-distinct item names (with each item's
`saved_name` in sync with its `name`, as the callback maintains), renaming
item `i` keeps the names pairwise distinct; the rename warns exactly when
the new name collides with a different item's name, in which case the whole
collection is left as it was (the prior name restored); a non-colliding
rename installs the new name and records it in `saved_name`. -/
theorem item_name_uniqueness (obs cams : List CamObj) (items : List Item) (i : Nat)
    (newName : PyStr) (old : Item)
    (hold : items[i]? = some old)
    (hnodup : (items.map Item.name).Nodup)
    (hsync : ∀ it ∈ items, it.saved_name = it.name) :
    ((set_item_name 2 obs cams items i newName).2.2.1.map Item.name).Nodup ∧
    ((set_item_name 2 obs cams items i newName).2.2.2 = true
      ↔ newName ≠ old.name ∧ newName ∈ items.map Item.name) ∧
    ((set_item_name 2 obs cams items i newName).2.2.2 = true
      → (set_item_name 2 obs cams items i newName).2.2.1 = items) ∧
    ((set_item_name 2 obs cams items i newName).2.2.2 = false
      → (set_item_name 2 obs cams items i newName).2.2.1
          = items.set i { old with name := newName, saved_name := newName }) := by
  have hmemold : old ∈ items := List.getElem?_mem hold
  have hsn : old.saved_name = old.name := hsync old hmemold
  have hself1 : (items.set i { old with name := newName })[i]?
      = some { old with name := newName } :=
    list_getElem?_set_same items i old { old with name := newName } hold
  -- the count over the collection after the name write
  have hcnt := countP_set_add (fun it => it.name == newName) items i old
    { old with name := newName } hold
  simp only [beq_self_eq_true, if_pos] at hcnt
  have hle := countP_names_le_one items newName hnodup
  have hposiff := countP_names_pos_iff items newName
  -- unfold the entry point
  have hentry : set_item_name 2 obs cams items i newName
      = name_conflict_handling 2 obs cams (items.set i { old with name := newName }) i := by
    unfold set_item_name
    rw [hold]
  rw [hentry]
  -- characterize the repeat test
  have hrepiff : (1 < (items.set i { old with name := newName }).countP
        (fun it => it.name == newName))
      ↔ (newName ≠ old.name ∧ newName ∈ items.map Item.name) := by
    constructor
    · intro hgt
      by_cases hob : old.name = newName
      · exfalso
        have hpos : 0 < items.countP (fun it => it.name == newName) :=
          hposiff.mpr (List.mem_map.mpr ⟨old, hmemold, hob⟩)
        rw [if_pos (by simp [hob])] at hcnt
        omega
      · constructor
        · exact fun h => hob h.symm
        · refine hposiff.mp ?_
          rw [if_neg (by simpa using hob)] at hcnt
          omega
    · rintro ⟨hne, hmem⟩
      have hpos : 0 < items.countP (fun it => it.name == newName) := hposiff.mpr hmem
      have hob : ¬old.name = newName := fun h => hne h.symm
      rw [if_neg (by simpa using hob)] at hcnt
      omega
  have hrec1 : ({ old with name := old.saved_name } : Item) = old := by
    nth_rewrite 1 [hsn]
    rfl
  have hondg : ({ old with saved_name := old.name } : Item) = old := by
    nth_rewrite 2 [← hsn]
    rfl
  have hinnercnt : ¬1 < items.countP (fun it => it.name == old.name) := by
    have := countP_names_le_one items old.name hnodup
    omega
  have hinner : (name_conflict_handling 1 obs cams items i).2.2.1 = items := by
    rw [name_conflict_handling_succ_some 0 obs cams items i old hold, if_neg hinnercnt]
    show items.set i { old with saved_name := old.name } = items
    rw [hondg]
    exact list_set_self items i old hold
  by_cases hrep : 1 < (items.set i { old with name := newName }).countP
      (fun it => it.name == newName)
  · -- collision: revert, warn, re-entrant run leaves everything unchanged
    have hX : (items.set i { old with name := newName }).set i
        { ({ old with name := newName } : Item) with
            name := ({ old with name := newName } : Item).saved_name }
        = items := by
      rw [List.set_set]
      show items.set i { old with name := old.saved_name } = items
      rw [hrec1]
      exact list_set_self items i old hold
    have hstep : name_conflict_handling 2 obs cams
        (items.set i { old with name := newName }) i
        = ((name_conflict_handling 1 obs cams items i).1,
           (name_conflict_handling 1 obs cams items i).2.1,
           (name_conflict_handling 1 obs cams items i).2.2.1, true) := by
      rw [name_conflict_handling_succ_some 1 obs cams
        (items.set i { old with name := newName }) i { old with name := newName } hself1]
      rw [if_pos hrep, hX]
    rw [hstep, hinner]
    refine ⟨hnodup, ?_, ?_, ?_⟩
    · simpa using hrepiff.mp hrep
    · intro _; rfl
    · intro h; cases h
  · -- no collision: the new name is installed and recorded
    have hY : (items.set i { old with name := newName }).set i
        { ({ old with name := newName } : Item) with
            saved_name := ({ old with name := newName } : Item).name }
        = items.set i { old with name := newName, saved_name := newName } := by
      rw [List.set_set]
    have hstep : name_conflict_handling 2 obs cams
        (items.set i { old with name := newName }) i
        = ((if ({ old with name := newName } : Item).saved_name ≠ [] then
              rename_identifiers ({ old with name := newName } : Item).saved_name
                ({ old with name := newName } : Item).name obs cams
            else (obs, cams)).1,
           (if ({ old with name := newName } : Item).saved_name ≠ [] then
              rename_identifiers ({ old with name := newName } : Item).saved_name
                ({ old with name := newName } : Item).name obs cams
            else (obs, cams)).2,
           items.set i { old with name := newName, saved_name := newName }, false) := by
      rw [name_conflict_handling_succ_some 1 obs cams
        (items.set i { old with name := newName }) i { old with name := newName } hself1]
      rw [if_neg hrep, hY]
    rw [hstep]
    have hnorep := fun h => hrep (hrepiff.mpr h)
    refine ⟨?_, ?_, ?_, ?_⟩
    · rw [List.map_set]
      by_cases hob : newName = old.name
      · have hnm : (items.map Item.name)[i]? = some newName := by
          rw [List.getElem?_map, hold, hob]
          rfl
        rw [list_set_self (items.map Item.name) i newName hnm]
        exact hnodup
      · have hmem : newName ∉ items.map Item.name := by
          intro hmem
          exact hnorep ⟨fun h => hob h, hmem⟩
        exact nodup_set_of_not_mem (items.map Item.name) i newName hnodup hmem
    · exact iff_of_false (by simp) hnorep
    · intro h; cases h
    · intro _; rfl

/-- Item `alpha`, used to instantiate the rename theorem. -/
def itemAlpha : Item := { defaultItem with name := "alpha".data, saved_name := "alpha".data }

/-- Item `beta`, used to instantiate the rename theorem. -/
def itemBeta : Item := { defaultItem with name := "beta".data, saved_name := "beta".data }

/-- Witness for C7: renaming `beta` to the already-taken name `alpha` warns
and leaves the collection unchanged; names stay pairwise distinct. -/
theorem item_name_uniqueness_witness :
    ([itemAlpha, itemBeta][1]? = some itemBeta) ∧
    (((set_item_name 2 [] [] [itemAlpha, itemBeta] 1 "alpha".data).2.2.1.map Item.name).Nodup ∧
     ((set_item_name 2 [] [] [itemAlpha, itemBeta] 1 "alpha".data).2.2.2 = true
       ↔ "alpha".data ≠ itemBeta.name ∧
         "alpha".data ∈ [itemAlpha, itemBeta].map Item.name) ∧
     ((set_item_name 2 [] [] [itemAlpha, itemBeta] 1 "alpha".data).2.2.2 = true
       → (set_item_name 2 [] [] [itemAlpha, itemBeta] 1 "alpha".data).2.2.1
           = [itemAlpha, itemBeta]) ∧
     ((set_item_name 2 [] [] [itemAlpha, itemBeta] 1 "alpha".data).2.2.2 = false
       → (set_item_name 2 [] [] [itemAlpha, itemBeta] 1 "alpha".data).2.2.1
           = [itemAlpha, itemBeta].set 1
               { itemBeta with name := "alpha".data, saved_name := "alpha".data })) :=
  ⟨rfl,
   item_name_uniqueness [] [] [itemAlpha, itemBeta] 1 "alpha".data itemBeta
     rfl (by decide) (by decide)⟩

/-! ## InteractiveSampler (`SCRSHOT_OT_sample_studio_light_rotation`)

`invoke` snapshots the sampled shading fields and the item's stored
rotation, forces an interactive light-preview mode, and syncs the preview
rotation with the item.  Each `MOUSEMOVE` accumulates the horizontal pointer
delta (times `0.0075`) into the preview rotation, wrapping at `±3.141592`
(crossing a bound jumps to the opposite bound), and writes it through to the
item.  `LEFTMOUSE` commits: `execute` restores the six snapshotted shading
fields, the item keeps the sampled rotation.  `RIGHTMOUSE`/`ESC` cancels:
the item's rotation is first restored to its pre-sample value, then
`execute` restores the shading fields. -/

inductive SamplerLightType | workbench | eevee
deriving DecidableEq, Repr

inductive SamplerEvent | mousemove (offset : Int) | leftmouse | rightmouse | esc
deriving DecidableEq, Repr

inductive ModalResult | running_modal | finished | cancelled
deriving DecidableEq, Repr

/-- The operator's modal state: the live shading, the item's stored
rotation, and the `invoke`-time snapshot. -/
structure SamplerState where
  shading : Shading
  item_rotate_z : ℚ
  saved_type : PyStr
  saved_light : PyStr
  saved_use_wsl : Bool
  saved_studiolight_rot_z : ℚ
  saved_use_scene_world : Bool
  saved_use_studiolight_view_rotation : Bool
  saved_item_rotate_z : ℚ

/-- The `invoke`-time snapshot of the sampled fields. -/
def sampler_snapshot (shading : Shading) (item_rot : ℚ) : SamplerState where
  shading := shading
  item_rotate_z := item_rot
  saved_type := shading.type
  saved_light := shading.light
  saved_use_wsl := shading.use_world_space_lighting
  saved_studiolight_rot_z := shading.studiolight_rotate_z
  saved_use_scene_world := shading.use_scene_world
  saved_use_studiolight_view_rotation := shading.use_studiolight_view_rotation
  saved_item_rotate_z := item_rot

/-- Phase of `invoke`: forcing of the interactive light-preview mode. -/
def sampler_force (lt : SamplerLightType) (st : SamplerState) : SamplerState :=
  match lt with
  | .workbench =>
    { st with shading := { st.shading with
        type := "SOLID".data, light := "STUDIO".data, use_world_space_lighting := true } }
  | .eevee =>
    { st with shading := { st.shading with
        type := "MATERIAL".data, use_scene_world := false,
        use_studiolight_view_rotation := true } }

/-- Phase of `invoke`, the rotation sync: a non-zero item rotation seeds the preview,
a zero one is overwritten by the current preview rotation. -/
def sampler_sync (st : SamplerState) : SamplerState :=
  if st.item_rotate_z ≠ 0 then
    { st with shading := { st.shading with studiolight_rotate_z := st.item_rotate_z } }
  else
    { st with item_rotate_z := st.shading.studiolight_rotate_z }

/-- Embeds `invoke`: snapshot, force the preview mode, sync rotations. -/
def sampler_invoke (lt : SamplerLightType) (shading : Shading) (item_rot : ℚ) :
    SamplerState :=
  sampler_sync (sampler_force lt (sampler_snapshot shading item_rot))

/-- One `MOUSEMOVE` step (`offset = mouse_x - mouse_prev_x`). -/
def sampler_mousemove (offset : Int) (st : SamplerState) : SamplerState :=
  let rz := st.shading.studiolight_rotate_z + (offset : ℚ) * (75 / 10000 : ℚ)
  let rz :=
    if rz ≤ -(3141592 / 1000000 : ℚ) then (3141592 / 1000000 : ℚ)
    else if rz ≥ (3141592 / 1000000 : ℚ) then -(3141592 / 1000000 : ℚ)
    else rz
  { st with
    shading := { st.shading with studiolight_rotate_z := rz }
    item_rotate_z := rz }

/-- Embeds `execute`: restore the six snapshotted shading fields. -/
def sampler_execute (st : SamplerState) : Shading :=
  { st.shading with
    type := st.saved_type
    light := st.saved_light
    use_world_space_lighting := st.saved_use_wsl
    studiolight_rotate_z := st.saved_studiolight_rot_z
    use_scene_world := st.saved_use_scene_world
    use_studiolight_view_rotation := st.saved_use_studiolight_view_rotation }

/-- Embeds `modal`: the event dispatch; the result carries the final shading and
the item's stored rotation. -/
def sampler_modal (ev : SamplerEvent) (st : SamplerState) :
    ModalResult × Shading × ℚ :=
  match ev with
  | .mousemove offset =>
    let st := sampler_mousemove offset st
    (.running_modal, st.shading, st.item_rotate_z)
  | .leftmouse => (.finished, sampler_execute st, st.item_rotate_z)
  | .rightmouse =>
    (.cancelled, sampler_execute { st with item_rotate_z := st.saved_item_rotate_z },
      st.saved_item_rotate_z)
  | .esc =>
    (.cancelled, sampler_execute { st with item_rotate_z := st.saved_item_rotate_z },
      st.saved_item_rotate_z)

/-- A full sampling gesture: `invoke`, the pointer moves, the ending
event. -/
def runGesture (lt : SamplerLightType) (sh0 : Shading) (r0 : ℚ)
    (moves : List Int) (ending : SamplerEvent) : ModalResult × Shading × ℚ :=
  sampler_modal ending
    (moves.foldl (fun st offset => sampler_mousemove offset st) (sampler_invoke lt sh0 r0))

/-- The ambient shading fields snapshotted by the sampler are back at their
pre-gesture values. -/
def restoredAmbient (sh sh0 : Shading) : Prop :=
  sh.type = sh0.type ∧ sh.light = sh0.light ∧
  sh.use_world_space_lighting = sh0.use_world_space_lighting ∧
  sh.studiolight_rotate_z = sh0.studiolight_rotate_z ∧
  sh.use_scene_world = sh0.use_scene_world ∧
  sh.use_studiolight_view_rotation = sh0.use_studiolight_view_rotation

theorem sampler_invoke_saved (lt : SamplerLightType) (sh0 : Shading) (r0 : ℚ) :
    (sampler_invoke lt sh0 r0).saved_type = sh0.type ∧
    (sampler_invoke lt sh0 r0).saved_light = sh0.light ∧
    (sampler_invoke lt sh0 r0).saved_use_wsl = sh0.use_world_space_lighting ∧
    (sampler_invoke lt sh0 r0).saved_studiolight_rot_z = sh0.studiolight_rotate_z ∧
    (sampler_invoke lt sh0 r0).saved_use_scene_world = sh0.use_scene_world ∧
    (sampler_invoke lt sh0 r0).saved_use_studiolight_view_rotation
      = sh0.use_studiolight_view_rotation ∧
    (sampler_invoke lt sh0 r0).saved_item_rotate_z = r0 := by
  cases lt <;> refine ⟨?_, ?_, ?_, ?_, ?_, ?_, ?_⟩ <;>
    (unfold sampler_invoke sampler_sync; split <;> rfl)

theorem sampler_moves_saved (moves : List Int) :
    ∀ st : SamplerState,
      (moves.foldl (fun st offset => sampler_mousemove offset st) st).saved_type
        = st.saved_type ∧
      (moves.foldl (fun st offset => sampler_mousemove offset st) st).saved_light
        = st.saved_light ∧
      (moves.foldl (fun st offset => sampler_mousemove offset st) st).saved_use_wsl
        = st.saved_use_wsl ∧
      (moves.foldl (fun st offset => sampler_mousemove offset st) st).saved_studiolight_rot_z
        = st.saved_studiolight_rot_z ∧
      (moves.foldl (fun st offset => sampler_mousemove offset st) st).saved_use_scene_world
        = st.saved_use_scene_world ∧
      (moves.foldl (fun st offset =>
          sampler_mousemove offset st) st).saved_use_studiolight_view_rotation
        = st.saved_use_studiolight_view_rotation ∧
      (moves.foldl (fun st offset => sampler_mousemove offset st) st).saved_item_rotate_z
        = st.saved_item_rotate_z := by
  induction moves with
  | nil => intro st; exact ⟨rfl, rfl, rfl, rfl, rfl, rfl, rfl⟩
  | cons offset rest ih =>
    intro st
    exact ih (sampler_mousemove offset st)

/-- C8: for every starting shading `sh0`, item rotation `r0` and pointer
gesture, ending with `RIGHTMOUSE`/`ESC` leaves the item's stored rotation at
`r0`, ending with `LEFTMOUSE` leaves it at the sampled value `r1` reached
after the moves, and in all three cases the snapshotted ambient shading
fields (mode, light kind, world-space toggle, preview rotation, plus scene
world and view rotation lock) are restored to their pre-gesture values. -/
theorem sampler_commit_cancel (lt : SamplerLightType) (sh0 : Shading) (r0 : ℚ)
    (moves : List Int) :
    (runGesture lt sh0 r0 moves SamplerEvent.rightmouse).2.2 = r0 ∧
    (runGesture lt sh0 r0 moves SamplerEvent.esc).2.2 = r0 ∧
    (runGesture lt sh0 r0 moves SamplerEvent.leftmouse).2.2
      = (moves.foldl (fun st offset => sampler_mousemove offset st)
          (sampler_invoke lt sh0 r0)).item_rotate_z ∧
    restoredAmbient (runGesture lt sh0 r0 moves SamplerEvent.rightmouse).2.1 sh0 ∧
    restoredAmbient (runGesture lt sh0 r0 moves SamplerEvent.esc).2.1 sh0 ∧
    restoredAmbient (runGesture lt sh0 r0 moves SamplerEvent.leftmouse).2.1 sh0 := by
  obtain ⟨h1, h2, h3, h4, h5, h6, h7⟩ :=
    sampler_moves_saved moves (sampler_invoke lt sh0 r0)
  obtain ⟨g1, g2, g3, g4, g5, g6, g7⟩ := sampler_invoke_saved lt sh0 r0
  refine ⟨?_, ?_, rfl, ?_, ?_, ?_⟩
  · show (moves.foldl (fun st offset => sampler_mousemove offset st)
      (sampler_invoke lt sh0 r0)).saved_item_rotate_z = r0
    rw [h7, g7]
  · show (moves.foldl (fun st offset => sampler_mousemove offset st)
      (sampler_invoke lt sh0 r0)).saved_item_rotate_z = r0
    rw [h7, g7]
  all_goals
    exact ⟨h1.trans g1, h2.trans g2, h3.trans g3, h4.trans g4, h5.trans g5, h6.trans g6⟩

/-! ## Resolution lock (`update_res_x` / `update_res_y`)

Assigning `cam_res_x` fires `update_res_x`: with `lock_res` set and the two
axes unequal it writes `cam_res_y := cam_res_x` — which synchronously fires
`update_res_y` (modelled with a fuel parameter) — and then writes
`scene.render.resolution_x`.  `update_res_y` is symmetric.  Note that the
callback only ever writes the render axis of the property being updated;
the opposite render axis is written only via the propagated assignment. -/

inductive ResAxis | x | y
deriving DecidableEq, Repr

/-- Embeds `update_res_x` (`ax = .x`) and `update_res_y` (`ax = .y`) in one
fuel-indexed function: the propagated assignment to the opposite axis
re-fires that axis's callback with one unit of fuel less. -/
def update_res (fuel : Nat) (ax : ResAxis) (it : Item) (r : RenderSettings) :
    Item × RenderSettings :=
  match fuel, ax with
  | 0, _ => (it, r)
  | fuel + 1, .x =>
    let p :=
      if it.lock_res ∧ it.cam_res_x ≠ it.cam_res_y then
        update_res fuel .y { it with cam_res_y := it.cam_res_x } r
      else (it, r)
    (p.1, { p.2 with resolution_x := p.1.cam_res_x })
  | fuel + 1, .y =>
    let p :=
      if it.lock_res ∧ it.cam_res_y ≠ it.cam_res_x then
        update_res fuel .x { it with cam_res_x := it.cam_res_y } r
      else (it, r)
    (p.1, { p.2 with resolution_y := p.1.cam_res_y })

/-- A user assignment to `cam_res_x` (fires `update_res_x`; fuel 2 covers
the one possible propagated re-entry). -/
def set_cam_res_x (v : Int) (it : Item) (r : RenderSettings) : Item × RenderSettings :=
  update_res 2 .x { it with cam_res_x := v } r

/-- A user assignment to `cam_res_y` (fires `update_res_y`). -/
def set_cam_res_y (v : Int) (it : Item) (r : RenderSettings) : Item × RenderSettings :=
  update_res 2 .y { it with cam_res_y := v } r

/-- C9 (amended): with `lock_res` set, after assigning either resolution
axis the item's two axes are equal (the assignment propagates when they
differ), and the render axis of the assigned property always matches the
new value; the *other* render axis is written (to the same value) exactly
when the assignment propagates, i.e. when the new value differs from the
other axis — otherwise it keeps its previous (possibly stale) value. -/
theorem res_lock_updates (it : Item) (r : RenderSettings) (v : Int)
    (h : it.lock_res = true) :
    ((set_cam_res_x v it r).1.cam_res_x = (set_cam_res_x v it r).1.cam_res_y ∧
     (set_cam_res_x v it r).1.cam_res_x = v ∧
     (set_cam_res_x v it r).2.resolution_x = v ∧
     (v ≠ it.cam_res_y → (set_cam_res_x v it r).2.resolution_y = v) ∧
     (v = it.cam_res_y → (set_cam_res_x v it r).2.resolution_y = r.resolution_y)) ∧
    ((set_cam_res_y v it r).1.cam_res_y = (set_cam_res_y v it r).1.cam_res_x ∧
     (set_cam_res_y v it r).1.cam_res_y = v ∧
     (set_cam_res_y v it r).2.resolution_y = v ∧
     (v ≠ it.cam_res_x → (set_cam_res_y v it r).2.resolution_x = v) ∧
     (v = it.cam_res_x → (set_cam_res_y v it r).2.resolution_x = r.resolution_x)) := by
  constructor
  · by_cases hv : v = it.cam_res_y
    · simp [set_cam_res_x, update_res, h, hv]
    · simp [set_cam_res_x, update_res, h, hv]
  · by_cases hv : v = it.cam_res_x
    · simp [set_cam_res_y, update_res, h, hv]
    · simp [set_cam_res_y, update_res, h, hv]

/-- A locked item whose axes agree, for instantiating the lock theorems. -/
def lockedItem : Item :=
  { defaultItem with lock_res := true, cam_res_x := 10, cam_res_y := 10 }

/-- A render-settings value whose resolution has drifted from the item. -/
def driftedRender : RenderSettings where
  filepath := []
  resolution_x := 999
  resolution_y := 777
  engine := "BLENDER_EEVEE".data
  use_file_extension := true
  use_render_cache := false
  use_overwrite := true
  use_placeholder := false

/-- Witness for C9 at a propagating assignment (`20 ≠ 10`): both item axes
and both render axes end at `20`. -/
theorem res_lock_updates_witness :
    lockedItem.lock_res = true ∧
    (set_cam_res_x 20 lockedItem driftedRender).1.cam_res_x
      = (set_cam_res_x 20 lockedItem driftedRender).1.cam_res_y ∧
    (set_cam_res_x 20 lockedItem driftedRender).2.resolution_x = 20 ∧
    (set_cam_res_x 20 lockedItem driftedRender).2.resolution_y = 20 :=
  ⟨rfl,
   (res_lock_updates lockedItem driftedRender 20 rfl).1.1,
   (res_lock_updates lockedItem driftedRender 20 rfl).1.2.2.1,
   (res_lock_updates lockedItem driftedRender 20 rfl).1.2.2.2.1 (by decide)⟩

/-- C9 counterexample: a locked item with `cam_res_x = cam_res_y = 10` and a
drifted scene render resolution; assigning `cam_res_x := 10` (an update that
does not propagate) leaves `render.resolution_y = 777 ≠ 10`, so the scene
render resolution is *not* updated to match the item's resolution on every
update. -/
theorem res_lock_stale_render_counterexample :
    (set_cam_res_x 10 lockedItem driftedRender).1.cam_res_y = 10 ∧
    (set_cam_res_x 10 lockedItem driftedRender).2.resolution_y = 777 ∧
    (set_cam_res_x 10 lockedItem driftedRender).2.resolution_y
      ≠ (set_cam_res_x 10 lockedItem driftedRender).1.cam_res_y := by
  refine ⟨?_, ?_, ?_⟩ <;> decide

/-! ## Copy/paste of item settings
(`SCRSHOT_OT_copy_screenshot_settings` / `SCRSHOT_OT_paste_screenshot_settings`)

Copy walks `active_scrshot.__annotations__`, keeps values that are Python
`str`/`int`/`bool` (enum properties read back as `str`, float and vector
properties and the object pointer are not), manually excludes
`{id, name, saved_name, enabled, subfolder_name}`, and adds three float
attributes of the linked camera data under an `ob_data_` prefix.  Paste
replays the JSON dictionary with `setattr` (the `ob_data_` keys onto the
camera data). -/

/-- The annotated property keys of `SCRSHOT_collection_property`, in
`__annotations__` order (first declaration wins for the two re-declared
keys `camera_ob` and `eevee_light_name`). -/
inductive ItemKey
  | camera_ob | id | name | saved_name | enabled
  | cam_res_x | cam_res_y | lock_res | cam_type | lens_type
  | lens_flip_x | lens_flip_y | render_frame | use_subfolder | subfolder_name
  | use_defaults | render_type | lighting_type | studio_light_name | matcap_light_name
  | eevee_light_name | use_wsl | color_type | single_color_value | use_backface_culling
  | use_cavity | cavity_ridge | cavity_valley | curve_ridge | curve_valley
  | use_outline | outliner_color_value | use_spec_lighting | use_scene_lights
  | use_scene_world | eevee_use_rotate | eevee_intensity | eevee_alpha | eevee_blur
  | studio_rotate_z
deriving DecidableEq, Repr

/-- The Python name of an annotated key. -/
def ItemKey.pyName : ItemKey → PyStr
  | .camera_ob => "camera_ob".data
  | .id => "id".data
  | .name => "name".data
  | .saved_name => "saved_name".data
  | .enabled => "enabled".data
  | .cam_res_x => "cam_res_x".data
  | .cam_res_y => "cam_res_y".data
  | .lock_res => "lock_res".data
  | .cam_type => "cam_type".data
  | .lens_type => "lens_type".data
  | .lens_flip_x => "lens_flip_x".data
  | .lens_flip_y => "lens_flip_y".data
  | .render_frame => "render_frame".data
  | .use_subfolder => "use_subfolder".data
  | .subfolder_name => "subfolder_name".data
  | .use_defaults => "use_defaults".data
  | .render_type => "render_type".data
  | .lighting_type => "lighting_type".data
  | .studio_light_name => "studio_light_name".data
  | .matcap_light_name => "matcap_light_name".data
  | .eevee_light_name => "eevee_light_name".data
  | .use_wsl => "use_wsl".data
  | .color_type => "color_type".data
  | .single_color_value => "single_color_value".data
  | .use_backface_culling => "use_backface_culling".data
  | .use_cavity => "use_cavity".data
  | .cavity_ridge => "cavity_ridge".data
  | .cavity_valley => "cavity_valley".data
  | .curve_ridge => "curve_ridge".data
  | .curve_valley => "curve_valley".data
  | .use_outline => "use_outline".data
  | .outliner_color_value => "outliner_color_value".data
  | .use_spec_lighting => "use_spec_lighting".data
  | .use_scene_lights => "use_scene_lights".data
  | .use_scene_world => "use_scene_world".data
  | .eevee_use_rotate => "eevee_use_rotate".data
  | .eevee_intensity => "eevee_intensity".data
  | .eevee_alpha => "eevee_alpha".data
  | .eevee_blur => "eevee_blur".data
  | .studio_rotate_z => "studio_rotate_z".data

/-- Source: `active_scrshot.__annotations__.keys()`. -/
def item_annotations : List ItemKey :=
  [.camera_ob, .id, .name, .saved_name, .enabled,
   .cam_res_x, .cam_res_y, .lock_res, .cam_type, .lens_type,
   .lens_flip_x, .lens_flip_y, .render_frame, .use_subfolder, .subfolder_name,
   .use_defaults, .render_type, .lighting_type, .studio_light_name, .matcap_light_name,
   .eevee_light_name, .use_wsl, .color_type, .single_color_value, .use_backface_culling,
   .use_cavity, .cavity_ridge, .cavity_valley, .curve_ridge, .curve_valley,
   .use_outline, .outliner_color_value, .use_spec_lighting, .use_scene_lights,
   .use_scene_world, .eevee_use_rotate, .eevee_intensity, .eevee_alpha, .eevee_blur,
   .studio_rotate_z]

/-- A Python attribute value as `getattr` sees it. -/
inductive FieldVal
  | s (v : PyStr)
  | i (v : Int)
  | b (v : Bool)
  | f (v : ℚ)
  | vec (v : ℚ × ℚ × ℚ)
  | obj (v : Option PyStr)
deriving DecidableEq, Repr

/-- Source: `isinstance(key_attr, (str, int, bool))`. -/
def FieldVal.isStrIntBool : FieldVal → Bool
  | .s _ => true
  | .i _ => true
  | .b _ => true
  | _ => false

def CamType.pyStr : CamType → PyStr
  | .persp => "persp".data
  | .ortho => "ortho".data

def LensType.pyStr : LensType → PyStr
  | .mm => "mm".data
  | .fov => "fov".data

def RenderType.pyStr : RenderType → PyStr
  | .workbench => "workbench".data
  | .eevee => "eevee".data

def LightingType.pyStr : LightingType → PyStr
  | .studio => "studio".data
  | .matcap => "matcap".data
  | .flat => "flat".data

def ColorType.pyStr : ColorType → PyStr
  | .material => "material".data
  | .single => "single".data
  | .object => "object".data
  | .random => "random".data
  | .vertex => "vertex".data
  | .texture => "texture".data

/-- Embeds `getattr(active_scrshot, key)`. -/
def item_getattr (it : Item) : ItemKey → FieldVal
  | .camera_ob => .obj it.camera_ob
  | .id => .i it.id
  | .name => .s it.name
  | .saved_name => .s it.saved_name
  | .enabled => .b it.enabled
  | .cam_res_x => .i it.cam_res_x
  | .cam_res_y => .i it.cam_res_y
  | .lock_res => .b it.lock_res
  | .cam_type => .s it.cam_type.pyStr
  | .lens_type => .s it.lens_type.pyStr
  | .lens_flip_x => .b it.lens_flip_x
  | .lens_flip_y => .b it.lens_flip_y
  | .render_frame => .i it.render_frame
  | .use_subfolder => .b it.use_subfolder
  | .subfolder_name => .s it.subfolder_name
  | .use_defaults => .b it.use_defaults
  | .render_type => .s it.render_type.pyStr
  | .lighting_type => .s it.lighting_type.pyStr
  | .studio_light_name => .s it.studio_light_name
  | .matcap_light_name => .s it.matcap_light_name
  | .eevee_light_name => .s it.eevee_light_name
  | .use_wsl => .b it.use_wsl
  | .color_type => .s it.color_type.pyStr
  | .single_color_value => .vec it.single_color_value
  | .use_backface_culling => .b it.use_backface_culling
  | .use_cavity => .b it.use_cavity
  | .cavity_ridge => .f it.cavity_ridge
  | .cavity_valley => .f it.cavity_valley
  | .curve_ridge => .f it.curve_ridge
  | .curve_valley => .f it.curve_valley
  | .use_outline => .b it.use_outline
  | .outliner_color_value => .vec it.outliner_color_value
  | .use_spec_lighting => .b it.use_spec_lighting
  | .use_scene_lights => .b it.use_scene_lights
  | .use_scene_world => .b it.use_scene_world
  | .eevee_use_rotate => .b it.eevee_use_rotate
  | .eevee_intensity => .f it.eevee_intensity
  | .eevee_alpha => .f it.eevee_alpha
  | .eevee_blur => .f it.eevee_blur
  | .studio_rotate_z => .f it.studio_rotate_z

/-- Embeds `setattr(active_scrshot, key, value)` — the item-local effect.  Enum
keys parse the identifier string back (an unknown identifier, which cannot
arise from `getattr`, leaves the field untouched where Blender would raise).
`cam_res_x`/`cam_res_y`/`lock_res` carry their update callback's item-local
propagation (the scene-render writes of `update_res_x`/`update_res_y` and
the camera-data writes of the camera-related callbacks act outside the
item and are modelled in their own sections); `name` is never pasted, its
collection-level callback is `name_conflict_handling` above.  A
type-mismatched value (impossible for pasted data) leaves the item
unchanged. -/
def item_setattr (it : Item) (k : ItemKey) (v : FieldVal) : Item :=
  match k with
  | .camera_ob => match v with | .obj w => { it with camera_ob := w } | _ => it
  | .id => match v with | .i w => { it with id := w } | _ => it
  | .name => match v with | .s w => { it with name := w } | _ => it
  | .saved_name => match v with | .s w => { it with saved_name := w } | _ => it
  | .enabled => match v with | .b w => { it with enabled := w } | _ => it
  | .cam_res_x =>
    match v with
    | .i w =>
      if it.lock_res ∧ w ≠ it.cam_res_y then { it with cam_res_x := w, cam_res_y := w }
      else { it with cam_res_x := w }
    | _ => it
  | .cam_res_y =>
    match v with
    | .i w =>
      if it.lock_res ∧ w ≠ it.cam_res_x then { it with cam_res_x := w, cam_res_y := w }
      else { it with cam_res_y := w }
    | _ => it
  | .lock_res =>
    match v with
    | .b w =>
      if w ∧ it.cam_res_x ≠ it.cam_res_y then
        { it with lock_res := w, cam_res_y := it.cam_res_x }
      else { it with lock_res := w }
    | _ => it
  | .cam_type =>
    match v with
    | .s w =>
      if w = "persp".data then { it with cam_type := .persp }
      else if w = "ortho".data then { it with cam_type := .ortho }
      else it
    | _ => it
  | .lens_type =>
    match v with
    | .s w =>
      if w = "mm".data then { it with lens_type := .mm }
      else if w = "fov".data then { it with lens_type := .fov }
      else it
    | _ => it
  | .lens_flip_x => match v with | .b w => { it with lens_flip_x := w } | _ => it
  | .lens_flip_y => match v with | .b w => { it with lens_flip_y := w } | _ => it
  | .render_frame => match v with | .i w => { it with render_frame := w } | _ => it
  | .use_subfolder => match v with | .b w => { it with use_subfolder := w } | _ => it
  | .subfolder_name => match v with | .s w => { it with subfolder_name := w } | _ => it
  | .use_defaults => match v with | .b w => { it with use_defaults := w } | _ => it
  | .render_type =>
    match v with
    | .s w =>
      if w = "workbench".data then { it with render_type := .workbench }
      else if w = "eevee".data then { it with render_type := .eevee }
      else it
    | _ => it
  | .lighting_type =>
    match v with
    | .s w =>
      if w = "studio".data then { it with lighting_type := .studio }
      else if w = "matcap".data then { it with lighting_type := .matcap }
      else if w = "flat".data then { it with lighting_type := .flat }
      else it
    | _ => it
  | .studio_light_name => match v with | .s w => { it with studio_light_name := w } | _ => it
  | .matcap_light_name => match v with | .s w => { it with matcap_light_name := w } | _ => it
  | .eevee_light_name => match v with | .s w => { it with eevee_light_name := w } | _ => it
  | .use_wsl => match v with | .b w => { it with use_wsl := w } | _ => it
  | .color_type =>
    match v with
    | .s w =>
      if w = "material".data then { it with color_type := .material }
      else if w = "single".data then { it with color_type := .single }
      else if w = "object".data then { it with color_type := .object }
      else if w = "random".data then { it with color_type := .random }
      else if w = "vertex".data then { it with color_type := .vertex }
      else if w = "texture".data then { it with color_type := .texture }
      else it
    | _ => it
  | .single_color_value => match v with | .vec w => { it with single_color_value := w } | _ => it
  | .use_backface_culling =>
    match v with | .b w => { it with use_backface_culling := w } | _ => it
  | .use_cavity => match v with | .b w => { it with use_cavity := w } | _ => it
  | .cavity_ridge => match v with | .f w => { it with cavity_ridge := w } | _ => it
  | .cavity_valley => match v with | .f w => { it with cavity_valley := w } | _ => it
  | .curve_ridge => match v with | .f w => { it with curve_ridge := w } | _ => it
  | .curve_valley => match v with | .f w => { it with curve_valley := w } | _ => it
  | .use_outline => match v with | .b w => { it with use_outline := w } | _ => it
  | .outliner_color_value =>
    match v with | .vec w => { it with outliner_color_value := w } | _ => it
  | .use_spec_lighting => match v with | .b w => { it with use_spec_lighting := w } | _ => it
  | .use_scene_lights => match v with | .b w => { it with use_scene_lights := w } | _ => it
  | .use_scene_world => match v with | .b w => { it with use_scene_world := w } | _ => it
  | .eevee_use_rotate => match v with | .b w => { it with eevee_use_rotate := w } | _ => it
  | .eevee_intensity => match v with | .f w => { it with eevee_intensity := w } | _ => it
  | .eevee_alpha => match v with | .f w => { it with eevee_alpha := w } | _ => it
  | .eevee_blur => match v with | .f w => { it with eevee_blur := w } | _ => it
  | .studio_rotate_z => match v with | .f w => { it with studio_rotate_z := w } | _ => it

/-- The camera-data attributes copied under the `ob_data_` prefix. -/
structure CamData where
  passepartout_alpha : ℚ
  display_size : ℚ
  angle : ℚ
deriving DecidableEq, Repr

def camdata_setattr (cam : CamData) (attr : PyStr) (v : ℚ) : CamData :=
  if attr = "passepartout_alpha".data then { cam with passepartout_alpha := v }
  else if attr = "display_size".data then { cam with display_size := v }
  else if attr = "angle".data then { cam with angle := v }
  else cam

/-- The manual exclusion set of `SCRSHOT_OT_copy_screenshot_settings`. -/
def copyExcludedKeys : List PyStr :=
  ["id".data, "name".data, "saved_name".data, "enabled".data, "subfolder_name".data]

/-- The serialized clipboard: the filtered item variables plus the
`ob_data_` camera attributes. -/
structure ScrshotCopyData where
  itemVars : List (ItemKey × FieldVal)
  obData : List (PyStr × ℚ)
deriving DecidableEq, Repr

/-- Embeds `SCRSHOT_OT_copy_screenshot_settings.execute`: serialize the
str/int/bool annotated fields minus the exclusion set, plus the camera-data
floats. -/
def copy_screenshot_settings (it : Item) (cam : CamData) : ScrshotCopyData where
  itemVars :=
    item_annotations.filterMap (fun k =>
      if (item_getattr it k).isStrIntBool ∧ k.pyName ∉ copyExcludedKeys then
        some (k, item_getattr it k)
      else none)
  obData :=
    [("passepartout_alpha".data, cam.passepartout_alpha),
     ("display_size".data, cam.display_size),
     ("angle".data, cam.angle)]

/-- Embeds `SCRSHOT_OT_paste_screenshot_settings.execute`: replay the clipboard
onto the target item and its camera data. -/
def paste_screenshot_settings (d : ScrshotCopyData) (it : Item) (cam : CamData) :
    Item × CamData :=
  (d.itemVars.foldl (fun acc p => item_setattr acc p.1 p.2) it,
   d.obData.foldl (fun c p => camdata_setattr c p.1 p.2) cam)

set_option maxHeartbeats 1000000 in
theorem item_setattr_preserves_identity (it : Item) (k : ItemKey) (v : FieldVal)
    (h : k.pyName ∉ copyExcludedKeys) :
    (item_setattr it k v).id = it.id ∧
    (item_setattr it k v).name = it.name ∧
    (item_setattr it k v).saved_name = it.saved_name ∧
    (item_setattr it k v).enabled = it.enabled ∧
    (item_setattr it k v).subfolder_name = it.subfolder_name := by
  cases k <;>
    first
      | exact absurd (by decide) h
      | (cases v <;> simp only [item_setattr] <;> (repeat' split) <;> simp)

theorem paste_fold_preserves_identity :
    ∀ (entries : List (ItemKey × FieldVal)) (it : Item),
      (∀ p ∈ entries, p.1.pyName ∉ copyExcludedKeys) →
      ((entries.foldl (fun acc p => item_setattr acc p.1 p.2) it).id = it.id ∧
       (entries.foldl (fun acc p => item_setattr acc p.1 p.2) it).name = it.name ∧
       (entries.foldl (fun acc p => item_setattr acc p.1 p.2) it).saved_name
         = it.saved_name ∧
       (entries.foldl (fun acc p => item_setattr acc p.1 p.2) it).enabled = it.enabled ∧
       (entries.foldl (fun acc p => item_setattr acc p.1 p.2) it).subfolder_name
         = it.subfolder_name) := by
  intro entries
  induction entries with
  | nil => intro it _; exact ⟨rfl, rfl, rfl, rfl, rfl⟩
  | cons p ps ih =>
    intro it hall
    obtain ⟨s1, s2, s3, s4, s5⟩ :=
      item_setattr_preserves_identity it p.1 p.2 (hall p (List.mem_cons_self p ps))
    obtain ⟨f1, f2, f3, f4, f5⟩ := ih (item_setattr it p.1 p.2)
      (fun q hq => hall q (List.mem_cons_of_mem p hq))
    exact ⟨f1.trans s1, f2.trans s2, f3.trans s3, f4.trans s4, f5.trans s5⟩

/-- C10: the copy operation serializes only str/int/bool annotated fields
outside the exclusion set `{id, name, saved_name, enabled, subfolder_name}`,
so pasting a copied clipboard onto any target item leaves the target's
identity fields — `id`, `name`, `saved_name`, `enabled`, `subfolder_name` —
unchanged. -/
theorem copy_paste_preserves_identity (src tgt : Item) (camS camT : CamData) :
    (∀ p ∈ (copy_screenshot_settings src camS).itemVars,
      p.2.isStrIntBool = true ∧ p.1.pyName ∉ copyExcludedKeys) ∧
    ((paste_screenshot_settings (copy_screenshot_settings src camS) tgt camT).1.id
        = tgt.id ∧
     (paste_screenshot_settings (copy_screenshot_settings src camS) tgt camT).1.name
        = tgt.name ∧
     (paste_screenshot_settings (copy_screenshot_settings src camS) tgt camT).1.saved_name
        = tgt.saved_name ∧
     (paste_screenshot_settings (copy_screenshot_settings src camS) tgt camT).1.enabled
        = tgt.enabled ∧
     (paste_screenshot_settings
        (copy_screenshot_settings src camS) tgt camT).1.subfolder_name
        = tgt.subfolder_name) := by
  have hguard : ∀ p ∈ (copy_screenshot_settings src camS).itemVars,
      p.2.isStrIntBool = true ∧ p.1.pyName ∉ copyExcludedKeys := by
    intro p hp
    rcases List.mem_filterMap.mp hp with ⟨k, _, hk⟩
    by_cases hc : (item_getattr src k).isStrIntBool ∧ k.pyName ∉ copyExcludedKeys
    · rw [if_pos hc] at hk
      cases hk
      exact ⟨hc.1, hc.2⟩
    · rw [if_neg hc] at hk
      cases hk
  exact ⟨hguard,
    paste_fold_preserves_identity (copy_screenshot_settings src camS).itemVars tgt
      (fun p hp => (hguard p hp).2)⟩

/-! ## BatchRenderOrchestrator (`SCRSHOT_OT_render_screenshots`)

Operator invocation is gated by `poll` (an active item must exist and the
export path must exist); `execute` then rejects before touching any state
when the document has never been saved (`bpy.data.filepath` empty).  The
success path retargets the area to a 3D view, forces visibility, snapshots
the session, applies the shared misc settings, resolves and renders each
item, and restores everything (the one deliberate leftover: an exited
local view is not re-entered, only reported). -/

/-- Per-object visibility flags (`hide_render`, `hide_viewport`,
`hide_get()`). -/
structure ObVis where
  hide_render : Bool
  hide_viewport : Bool
  hide_layer : Bool
deriving DecidableEq, Repr

/-- Per-collection visibility flags plus the matching layer-collection's
viewport flag. -/
structure CollVis where
  hide_render : Bool
  hide_viewport : Bool
  layer_hide_viewport : Bool
deriving DecidableEq, Repr

/-- The operator's `render_type` enum. -/
inductive RenderOpType | single | enabled
deriving DecidableEq, Repr

/-- The document/session state the orchestrator reads and writes. -/
structure World where
  data_filepath : PyStr
  export_path : PyStr
  export_path_exists_fs : Bool
  format_type : ImgFormat
  scrshot_camera_coll : List Item
  scrshot_camera_index : Int
  area_type : PyStr
  view_perspective : PyStr
  local_view : Bool
  objects : List (PyStr × ObVis)
  collections : List (PyStr × CollVis)
  session : SessionState
  export_listing : List DirEntry
deriving Repr

/-- Embeds `active_screenshot_exists` (the poll helper). -/
def active_screenshot_exists (w : World) : Bool :=
  if w.scrshot_camera_coll.length = 0 then false
  else if w.scrshot_camera_index + 1 > (w.scrshot_camera_coll.length : Int) then false
  else true

/-- Embeds `export_path_exists` (the poll helper; `//screenshots` is exempt from
the filesystem check). -/
def export_path_exists (w : World) : Bool :=
  if ¬w.export_path_exists_fs ∧ w.export_path ≠ "//screenshots".data then false
  else true

/-- The forcing pass of `get_set_hidden_objects`: render-hidden entities are
viewport-hidden, render-visible ones fully shown. -/
def force_visibility_objects (objects : List (PyStr × ObVis)) : List (PyStr × ObVis) :=
  objects.map (fun p =>
    if p.2.hide_render then (p.1, { p.2 with hide_viewport := true })
    else (p.1, { p.2 with hide_viewport := false, hide_layer := false }))

def force_visibility_collections (colls : List (PyStr × CollVis)) : List (PyStr × CollVis) :=
  colls.map (fun p =>
    if p.2.hide_render then (p.1, { p.2 with hide_viewport := true })
    else (p.1, { p.2 with hide_viewport := false, layer_hide_viewport := false }))

def ImgFormat.upper : ImgFormat → PyStr
  | .png => "PNG".data
  | .jpeg => "JPEG".data
  | .open_exr => "OPEN_EXR".data

/-- Embeds `handle_misc_sett`: the session-wide settings shared by every capture of
the batch. -/
def handle_misc_sett (fmt : ImgFormat) (s : SessionState) : SessionState :=
  { s with
    viewport_aa := "FXAA".data
    taa_samples := 16
    show_overlays := false
    shading := { s.shading with use_dof := false, show_xray := false, show_shadows := false }
    image_settings := { s.image_settings with
      color_mode := "RGB".data
      file_format := fmt.upper
      color_depth := if fmt ≠ .jpeg then "16".data else s.image_settings.color_depth }
    display_device := "sRGB".data
    render := { s.render with
      use_file_extension := true
      use_render_cache := false
      use_overwrite := true
      use_placeholder := false } }

/-- Embeds `render_screenshot`: resolve and capture each selected item, returning
the item count and the output path of every capture. -/
def render_screenshot (rt : RenderOpType) (w : World) (s : SessionState) :
    Nat × List PyStr × SessionState :=
  match rt with
  | .enabled =>
    let rendered := w.scrshot_camera_coll.filter (fun it => it.enabled)
    let p := rendered.foldl
      (fun (acc : List PyStr × SessionState) it =>
        let s := handle_user_settings w.export_path w.format_type w.export_listing it acc.2
        (acc.1 ++ [s.render.filepath], s))
      ([], s)
    (rendered.length, p.1, p.2)
  | .single =>
    let it := w.scrshot_camera_coll.getD w.scrshot_camera_index.toNat defaultItem
    let s := handle_user_settings w.export_path w.format_type w.export_listing it s
    (1, [s.render.filepath], s)

def pollRejectedMsg : PyStr := "poll rejected".data

def saveFileFirstMsg : PyStr :=
  "Please save a blender file before recording screenshots".data

/-- One operator invocation: the `poll` gate, then `execute`.  `execute`
checks `bpy.data.filepath` before any state is touched; on the success path
it runs the batch and restores the saved settings, visibility and view
(an exited local view stays exited).  The result carries the report and
the rendered output paths; the second component is the world after the
invocation. -/
def render_screenshots_run (rt : RenderOpType) (w : World) :
    Except PyStr (Nat × List PyStr) × World :=
  if ¬(active_screenshot_exists w ∧ export_path_exists w) then
    (.error pollRejectedMsg, w)
  else if w.data_filepath = [] then
    (.error saveFileFirstMsg, w)
  else
    -- get_space_data / get_set_hidden_objects / save_settings
    let saved_session := w.session
    let wrun := { w with
      area_type := "VIEW_3D".data
      local_view := false
      objects := force_visibility_objects w.objects
      collections := force_visibility_collections w.collections
      view_perspective := "CAMERA".data }
    -- handle_misc_sett + the per-item loop
    let misc := handle_misc_sett w.format_type wrun.session
    let out := render_screenshot rt w misc
    -- load_saved_settings: restore area type, session settings, camera,
    -- frame, visibility and the camera-view toggle
    ((.ok (out.1, out.2.1)),
     { w with local_view := false, session := saved_session })

/-- C5 (amended): whenever a *checked* precondition fails — the poll
preconditions (no active item, missing export root) or, inside `execute`,
a document that has never been saved — the invocation is rejected with an
error and the world is returned unchanged: no visibility flag,
shading/render setting, camera or frame is mutated on the rejection path.
The spec's remaining precondition, "at least one enabled item", is not
checked anywhere: with only disabled items the operator runs the full
mutate-and-restore cycle and reports zero screenshots rendered instead of
rejecting. -/
theorem orchestrator_reject_before_mutation (rt : RenderOpType) (w : World)
    (h : active_screenshot_exists w = false ∨ export_path_exists w = false ∨
      w.data_filepath = []) :
    (render_screenshots_run rt w).2 = w ∧
    ((render_screenshots_run rt w).1 = .error pollRejectedMsg ∨
     (render_screenshots_run rt w).1 = .error saveFileFirstMsg) := by
  unfold render_screenshots_run
  rcases h with h | h | h
  · rw [if_pos (by simp [h])]
    exact ⟨rfl, Or.inl rfl⟩
  · rw [if_pos (by simp [h])]
    exact ⟨rfl, Or.inl rfl⟩
  · by_cases hp : active_screenshot_exists w ∧ export_path_exists w
    · rw [if_neg (by simpa using hp), if_pos h]
      exact ⟨rfl, Or.inr rfl⟩
    · rw [if_pos (by simpa using hp)]
      exact ⟨rfl, Or.inl rfl⟩

/-- A world whose document was never saved but whose poll preconditions
hold. -/
def unsavedWorld : World where
  data_filepath := []
  export_path := "//screenshots".data
  export_path_exists_fs := false
  format_type := .png
  scrshot_camera_coll := [itemAlpha]
  scrshot_camera_index := 0
  area_type := "PROPERTIES".data
  view_perspective := "PERSP".data
  local_view := true
  objects := [("cube".data, ⟨true, false, false⟩)]
  collections := [("coll".data, ⟨false, true, false⟩)]
  session := defaultSession
  export_listing := []

/-- Witness for C5: invoking the operator on `unsavedWorld` reports the
save-first error and leaves the world untouched. -/
theorem orchestrator_reject_before_mutation_witness :
    unsavedWorld.data_filepath = [] ∧
    (render_screenshots_run RenderOpType.enabled unsavedWorld).2 = unsavedWorld :=
  ⟨rfl,
   (orchestrator_reject_before_mutation RenderOpType.enabled unsavedWorld
     (Or.inr (Or.inr rfl))).1⟩

/-- A saved document that passes `poll` (an active item exists and the
export path is valid) but whose only item is disabled, in a local view. -/
def noEnabledWorld : World where
  data_filepath := "/tmp/project.blend".data
  export_path := "//screenshots".data
  export_path_exists_fs := false
  format_type := .png
  scrshot_camera_coll := [{ itemAlpha with enabled := false }]
  scrshot_camera_index := 0
  area_type := "PROPERTIES".data
  view_perspective := "PERSP".data
  local_view := true
  objects := [("cube".data, ⟨true, false, false⟩)]
  collections := [("coll".data, ⟨false, true, false⟩)]
  session := defaultSession
  export_listing := []

/-- C5 counterexample: the spec lists "no enabled items" among the
preconditions whose failure aborts before mutating shared state, but the
code never checks it: on a saved document that passes `poll` with every
item disabled, the invocation is *not* rejected — it runs the whole
mutate-and-restore cycle and reports zero screenshots rendered — and it
does mutate shared state, leaving the exited local view unrestored. -/
theorem orchestrator_no_enabled_items_counterexample :
    (∀ it ∈ noEnabledWorld.scrshot_camera_coll, it.enabled = false) ∧
    noEnabledWorld.data_filepath ≠ [] ∧
    active_screenshot_exists noEnabledWorld = true ∧
    export_path_exists noEnabledWorld = true ∧
    (render_screenshots_run RenderOpType.enabled noEnabledWorld).1
      = Except.ok (0, []) ∧
    noEnabledWorld.local_view = true ∧
    (render_screenshots_run RenderOpType.enabled noEnabledWorld).2.local_view = false := by
  refine ⟨by decide, by decide, by decide, by decide, rfl, by decide, by decide⟩

end ScrshotSaver
